import Mathlib

/-!
Verification of the issue-tracking backend (projects, teams, hierarchical
work items).  The definitions below are a shallow embedding of the Python
source: `app/auth/permissions.py`, `app/endpoints/v1/stories_api.py` and the
supporting models.  The SQLAlchemy session is modelled as an explicit `DB`
value; every endpoint becomes a pure function from a `DB` (plus the resolved
current user and the form fields) to an `Except` result and, for mutations,
an updated `DB`.  The one loop in the source that can fail to terminate (the
ancestor walk of `_validate_hierarchy`) is given an explicit fuel parameter;
running out of fuel (`none`) models the source looping forever.
-/

/-! ### String primitives

The kernel cannot reduce the byte-level core `String` functions, so the
Python string operations used by the source (`lower`, `upper`, `strip`,
`split`, `int(...)`, slicing, `startswith`) are defined here over the
underlying character list, with the same semantics on the ASCII data the
system stores.
-/

def lowerChar (c : Char) : Char :=
  if 'A' ≤ c && c ≤ 'Z' then Char.ofNat (c.toNat + 32) else c

def upperChar (c : Char) : Char :=
  if 'a' ≤ c && c ≤ 'z' then Char.ofNat (c.toNat - 32) else c

/-- Python `str.lower()` (ASCII). -/
def strLower (s : String) : String := String.mk (s.data.map lowerChar)

/-- Python `str.upper()` (ASCII). -/
def strUpper (s : String) : String := String.mk (s.data.map upperChar)

def isSpaceChar (c : Char) : Bool := c == ' ' || c == '\t' || c == '\n' || c == '\r'

/-- Python `str.strip()`. -/
def strTrim (s : String) : String :=
  String.mk ((s.data.dropWhile isSpaceChar).reverse.dropWhile isSpaceChar).reverse

def digitVal (c : Char) : Option Nat :=
  if 48 ≤ c.toNat && c.toNat ≤ 57 then some (c.toNat - 48) else none

def parseNatAux : List Char → Nat → Option Nat
  | [], acc => some acc
  | c :: cs, acc =>
    match digitVal c with
    | some d => parseNatAux cs (acc * 10 + d)
    | none => none

/-- Python `int(s)` restricted to unsigned decimal literals, as `Option`:
a non-empty all-digit string parses, anything else is `none` (the source
always wraps `int(...)` in `try/except` and treats failure as `None`/skip). -/
def strToNatQ (s : String) : Option Nat :=
  match s.data with
  | [] => none
  | l => parseNatAux l 0

def splitOnCharAux (sep : Char) : List Char → List Char → List (List Char)
  | [], acc => [acc.reverse]
  | c :: cs, acc =>
    if c == sep then acc.reverse :: splitOnCharAux sep cs []
    else splitOnCharAux sep cs (c :: acc)

/-- Python `s.split('-')` (always non-empty). -/
def strSplitDash (s : String) : List String :=
  (splitOnCharAux '-' s.data []).map String.mk

/-- Python `s.startswith(p)`; models SQL `LIKE 'p%'`. -/
def strStartsWith (p s : String) : Bool := List.isPrefixOf p.data s.data

/-- Python slicing `s[:n]`. -/
def strTake (s : String) (n : Nat) : String := String.mk (s.data.take n)

/-! ### Data model

Translated from `app/models/user.py`, `app/models/project.py` and
`app/models/story.py`.  Dates are stored in their `str(date)` rendering
`YYYY-MM-DD` (the only way the source ever compares or displays them). -/

structure UserRec where
  id : Nat
  username : String
  email : String
  role : String
  /-- the raw `view_mode` column; the `view_mode` property is derived below. -/
  view_mode_col : String
  deriving DecidableEq

/-- `User.is_master_admin` property: the master admin is recognised by a
fixed e-mail address. -/
def UserRec.is_master_admin (u : UserRec) : Bool := u.email == "admin@jira.local"

/-- `User.view_mode` property: the master admin always operates in ADMIN mode. -/
def UserRec.view_mode (u : UserRec) : String :=
  if u.is_master_admin then "ADMIN" else u.view_mode_col

structure ProjectRec where
  id : Nat
  name : String
  /-- models the `project_prefix` column (nullable-empty string). -/
  prefixVal : String
  owner_id : Option Nat
  /-- `is_active` column added by migration 4549c341db14. -/
  is_active : Bool
  deriving DecidableEq

structure TeamRec where
  id : Nat
  project_id : Nat
  lead_id : Option Nat
  /-- member user ids (the `team_members` association table). -/
  members : List Nat
  deriving DecidableEq

structure Issue where
  id : Nat
  project_id : Nat
  project_name : String
  story_pointer : String
  release_number : Option String
  sprint_number : Option String
  assignee : String
  assignee_id : Option Nat
  reviewer : Option String
  title : String
  description : String
  issue_type : Option String
  priority : Option String
  status : Option String
  start_date : Option String
  end_date : Option String
  team_id : Option Nat
  parent_issue_id : Option Nat
  created_by : Option Nat
  deriving DecidableEq

/-- `UserStoryActivity` row (aggregated activity log). -/
structure Activity where
  id : Nat
  story_id : Nat
  user_id : Option Nat
  action : String
  changes : String
  change_count : Nat
  created_at : Nat
  deriving DecidableEq

/-- The relational store, one list per table, plus the autoincrement counter
for `user_story.id` and the current timestamp used for `created_at`. -/
structure DB where
  users : List UserRec
  projects : List ProjectRec
  teams : List TeamRec
  issues : List Issue
  activities : List Activity
  next_issue_id : Nat
  next_activity_id : Nat
  now : Nat
  deriving DecidableEq

/-- `db.query(User).filter(User.id == i).first()` -/
def findUser (db : DB) (i : Nat) : Option UserRec := db.users.find? (fun u => u.id == i)

/-- `db.query(Project).filter(Project.id == i).first()` -/
def findProject (db : DB) (i : Nat) : Option ProjectRec := db.projects.find? (fun p => p.id == i)

/-- `db.query(Team).filter(Team.id == i).first()` -/
def findTeam (db : DB) (i : Nat) : Option TeamRec := db.teams.find? (fun t => t.id == i)

/-- `db.query(UserStory).filter(UserStory.id == i).first()` -/
def findIssue (db : DB) (i : Nat) : Option Issue := db.issues.find? (fun s => s.id == i)

/-- the `children` backref: rows whose `parent_issue_id` equals the story id. -/
def childrenOf (db : DB) (sid : Nat) : List Issue :=
  db.issues.filter (fun c => c.parent_issue_id == some sid)

/-- Error taxonomy of the HTTP layer.  `internalError` stands for an
uncaught exception surfaced as a 500 response. -/
inductive Err where
  | notFound
  | projectInactive
  | permissionDenied
  | accessDenied
  | subtaskNeedsParent
  | parentNotFound
  | selfParent
  | circularDependency
  | invalidParentType (child : String)
  | blockedByChildren (pending : Nat)
  | internalError
  deriving DecidableEq

/-- Modelled from the spec: `app.utils.common.check_project_active` is not in
the source tree (only its import and call sites are).  Per the spec a
mutation on an inactive project is rejected with the `ProjectInactive`
error before any write. -/
def check_project_active (is_active_flag : Bool) : Except Err Unit :=
  if is_active_flag then Except.ok () else Except.error Err.projectInactive

/-! ### AccessControl — `app/auth/permissions.py` -/

/-- `can_create_issue(user, project_id, team_id, db)`. -/
def can_create_issue (user : UserRec) (project_id : Nat) (team_id : Option Nat) (db : DB) : Bool :=
  match findProject db project_id with
  | none => false
  | some project =>
    if !project.is_active then false
    else if user.role == "ADMIN" then true
    else
      match team_id with
      | none => false
      | some tid =>
        match findTeam db tid with
        | none => false
        | some team =>
          if team.lead_id == some user.id then
            if team.project_id != project_id then false else true
          else false

/-- `can_update_issue(user, story, db)`.  `story.project` is a non-nullable
foreign key, so the project is present in any live store; a missing project
is conservatively a denial. -/
def can_update_issue (user : UserRec) (story : Issue) (db : DB) : Bool :=
  match findProject db story.project_id with
  | none => false
  | some p =>
    if !p.is_active then false
    else if user.role == "ADMIN" then true
    else
      let leadOk :=
        match story.team_id with
        | none => false
        | some tid =>
          match findTeam db tid with
          | none => false
          | some team => team.lead_id == some user.id
      if leadOk then true
      else story.assignee_id == some user.id

/-- `can_delete_issue(user, story, db)` — lead or admin only, never the
assignee.  (Defined in the source but never called by any route.) -/
def can_delete_issue (user : UserRec) (story : Issue) (db : DB) : Bool :=
  match findProject db story.project_id with
  | none => false
  | some p =>
    if !p.is_active then false
    else if user.role == "ADMIN" then true
    else
      match story.team_id with
      | none => false
      | some tid =>
        match findTeam db tid with
        | none => false
        | some team => team.lead_id == some user.id

/-- `can_view_issue(user, story, db)`. -/
def can_view_issue (user : UserRec) (story : Issue) (db : DB) : Bool :=
  if user.role == "ADMIN" then true
  else if db.teams.any (fun t => t.project_id == story.project_id && t.lead_id == some user.id) then true
  else if (match story.team_id with
           | none => false
           | some tid =>
             match findTeam db tid with
             | none => false
             | some team => team.members.contains user.id) then true
  else if story.assignee_id == some user.id then true
  else if db.issues.any (fun s => s.project_id == story.project_id && s.assignee_id == some user.id) then true
  else false

/-! ### HierarchyValidator — `_validate_hierarchy` in `stories_api.py` -/

/-- The `while ancestor.parent_issue_id:` loop walking up from the candidate
parent.  `some true`: the current issue's id appeared as an ancestor's
parent (circular).  `some false`: the loop exited (top of chain reached, or
a dangling parent pointer broke the walk).  `none`: the given fuel was
exhausted, i.e. the source loop is still running — there is no visited-set,
so on a pre-existing parent cycle the source never terminates. -/
def walkAux (db : DB) (current : Nat) : Nat → Issue → Option Bool
  | 0, _ => none
  | Nat.succ fuel, ancestor =>
    match ancestor.parent_issue_id with
    | none => some false
    | some p =>
      if p == current then some true
      else
        match findIssue db p with
        | none => some false
        | some a => walkAux db current fuel a

/-- The type-compatibility checks at the end of `_validate_hierarchy`,
against the parent's actual `issue_type`. -/
def hierarchyTypeCheck (issue_type_val : Option String) (ptype : Option String) : Except Err Unit :=
  if issue_type_val == some "Epic" then Except.error (Err.invalidParentType "Epic")
  else if issue_type_val == some "Story" && ptype != some "Epic" then
    Except.error (Err.invalidParentType "Story")
  else if issue_type_val == some "Task" && ptype != some "Story" then
    Except.error (Err.invalidParentType "Task")
  else if issue_type_val == some "Subtask" && ptype != some "Task" then
    Except.error (Err.invalidParentType "Subtask")
  else if issue_type_val == some "Bug" && !(ptype == some "Story" || ptype == some "Task") then
    Except.error (Err.invalidParentType "Bug")
  else Except.ok ()

/-- `_validate_hierarchy(db, parent_id, issue_type, current_issue_id)`.
The outer `Option` is `none` exactly when the ancestor walk runs out of
fuel (the source loops forever). -/
def _validate_hierarchy (db : DB) (parent_id : Option Nat) (issue_type_val : Option String)
    (current_issue_id : Option Nat) (fuel : Nat) : Option (Except Err Unit) :=
  match parent_id with
  | none =>
    if issue_type_val == some "Subtask" then some (Except.error Err.subtaskNeedsParent)
    else some (Except.ok ())
  | some pid =>
    match findIssue db pid with
    | none => some (Except.error Err.parentNotFound)
    | some parent_story =>
      match current_issue_id with
      | none => some (hierarchyTypeCheck issue_type_val parent_story.issue_type)
      | some cur =>
        if pid == cur then some (Except.error Err.selfParent)
        else
          match walkAux db cur fuel parent_story with
          | none => none
          | some true => some (Except.error Err.circularDependency)
          | some false => some (hierarchyTypeCheck issue_type_val parent_story.issue_type)

/-! ### CodeAllocator — `_generate_story_code` in `stories_api.py` -/

/-- Python `f"{n:04d}"`: decimal rendering left-padded with zeros to at
least four digits. -/
def pad4 (n : Nat) : String :=
  let s := toString n
  String.mk (List.replicate (4 - s.data.length) '0') ++ s

/-- `_generate_story_code(db, project_id)`. -/
def _generate_story_code (db : DB) (project_id : Nat) : Except Err String :=
  match findProject db project_id with
  | none => Except.error Err.notFound
  | some project =>
    let prefixVal := if project.prefixVal != "" then project.prefixVal
                     else strUpper (strTake project.name 2)
    let stories_with_prefix := db.issues.filter (fun s => strStartsWith (prefixVal ++ "-") s.story_pointer)
    let max_num := stories_with_prefix.foldl
      (fun acc s =>
        match strToNatQ ((strSplitDash s.story_pointer).getLastD "") with
        | some num => if num > acc then num else acc
        | none => acc) 0
    Except.ok (prefixVal ++ "-" ++ pad4 (max_num + 1))

/-! ### AuditTrail — `_log_activity_aggregated` in `stories_api.py` -/

/-- one `(field, old, new)` diff, already rendered to strings. -/
abbrev Chg := String × String × String

def chgLine (c : Chg) : String := c.1 ++ ": " ++ c.2.1 ++ " → " ++ c.2.2

/-- `_log_activity_aggregated(db, story_id, user_id, action, changes_dict)`:
appends one aggregated `UserStoryActivity` row, except that an `UPDATED`
action with an empty diff set writes nothing. -/
def _log_activity_aggregated (db : DB) (story_id : Nat) (user_id : Option Nat)
    (action : String) (changes_dict : List Chg) : DB :=
  if changes_dict.isEmpty && action == "UPDATED" then db
  else
    let change_lines := (if action == "CREATED" then ["Issue Created"] else []) ++
      changes_dict.map chgLine
    let activity : Activity :=
      { id := db.next_activity_id
        story_id := story_id
        user_id := user_id
        action := action
        changes := String.intercalate "\n" change_lines
        change_count := changes_dict.length
        created_at := db.now }
    { db with activities := db.activities ++ [activity],
              next_activity_id := db.next_activity_id + 1 }

/-! ### Read endpoints — `get_story_history` and `get_story_activity` -/

/-- activity rows of one story ordered by `created_at` descending
(`ORDER BY created_at DESC`). -/
def activityRowsDesc (db : DB) (id : Nat) : List Activity :=
  (db.activities.filter (fun a => a.story_id == id)).mergeSort
    (fun a b => Nat.ble b.created_at a.created_at)

/-- `GET /user-stories/{id}/history`.  The route declares no current-user
dependency at all: the only inputs are the store and the path id. -/
def get_story_history (db : DB) (id : Nat) : List Activity :=
  activityRowsDesc db id

/-- the history route as invoked by an authenticated caller: the HTTP layer
resolves a user, and the handler ignores it. -/
def get_story_history_for_caller (_caller : UserRec) (db : DB) (id : Nat) : List Activity :=
  get_story_history db id

/-- one rendered row of `GET /user-stories/{id}/activity`. -/
structure ActivityView where
  id : Nat
  story_id : Nat
  user_id : Option Nat
  username : String
  action : String
  changes : String
  created_at : Nat
  deriving DecidableEq

def toActivityView (db : DB) (act : Activity) : ActivityView :=
  { id := act.id
    story_id := act.story_id
    user_id := act.user_id
    username := match act.user_id.bind (findUser db) with
                | some u => u.username
                | none => "System"
    action := act.action
    changes := act.changes
    created_at := act.created_at }

/-- `GET /user-stories/{id}/activity`: 404 on a missing story, then a
`can_view_issue` gate, then the same rows as the history route. -/
def get_story_activity (db : DB) (user : UserRec) (id : Nat) : Except Err (List ActivityView) :=
  match findIssue db id with
  | none => Except.error Err.notFound
  | some story =>
    if !can_view_issue user story db then Except.error Err.accessDenied
    else Except.ok ((activityRowsDesc db id).map (toActivityView db))

/-! ### `DELETE /user-stories/{id}` — `delete_user_story`

The handler looks the story up (404), checks the project-active gate, and
deletes.  It never consults `can_delete_issue`.  The `ON DELETE CASCADE`
removal of descendant rows happens inside the database engine and is not
modelled; the theorems below do not depend on it. -/
def delete_user_story (db : DB) (user : UserRec) (id : Nat) : Except Err (DB × String) :=
  match findIssue db id with
  | none => Except.error Err.notFound
  | some story =>
    match findProject db story.project_id with
    | none => Except.error Err.internalError
    | some project =>
      match check_project_active project.is_active with
      | Except.error e => Except.error e
      | Except.ok () =>
        Except.ok ({ db with issues := db.issues.filter (fun s => !(s.id == id)) },
                   "Story deleted successfully")

/-! ### `PUT /user-stories/{id}` — `update_story` -/

/-- the raw multipart form of the update route (every field optional;
integers and the parent id arrive as strings). -/
structure UpdateForm where
  title : Option String := none
  description : Option String := none
  sprint_number : Option String := none
  assignee : Option String := none
  assignee_id : Option String := none
  reviewer : Option String := none
  status : Option String := none
  parent_issue_id : Option String := none
  start_date : Option String := none
  end_date : Option String := none
  priority : Option String := none
  issue_type : Option String := none
  deriving DecidableEq

/-- `clean_str`: empty / "null" / "undefined" become `None`. -/
def clean_str (v : String) : Option String :=
  if v == "" || v == "null" || v == "undefined" then none else some v

/-- `clean_int`: falsy strings and unparsable strings become `None`. -/
def clean_int (v : String) : Option Nat :=
  if v == "" then none else strToNatQ (strTrim v)

/-- a `YYYY-MM-DD` shape check standing for `datetime.strptime(d, "%Y-%m-%d")`;
a malformed string makes the Python handler raise (a 500 response). -/
def validYmd (s : String) : Bool :=
  match s.data with
  | [y1, y2, y3, y4, d1, m1, m2, d2, a1, a2] =>
    y1.isDigit && y2.isDigit && y3.isDigit && y4.isDigit && d1 == '-' &&
    m1.isDigit && m2.isDigit && d2 == '-' && a1.isDigit && a2.isDigit
  | _ => false

/-- `parse_date_str` followed by `strptime(...).date() if dval else None`:
slice to ten characters, empty means `None`, malformed raises. -/
def parse_form_date (v : String) : Except Err (Option String) :=
  let dval := strTake v 10
  if dval == "" then Except.ok none
  else if validYmd dval then Except.ok (some dval)
  else Except.error Err.internalError

/-- `update_data` after cleaning: outer `Option` is dict membership, inner
values carry the cleaned payload. -/
structure UpdateData where
  title : Option String := none
  description : Option String := none
  sprint_number : Option (Option String) := none
  assignee : Option String := none
  assignee_id : Option (Option Nat) := none
  reviewer : Option (Option String) := none
  status : Option String := none
  parent_issue_id : Option (Option Nat) := none
  priority : Option String := none
  issue_type : Option String := none
  start_date : Option (Option String) := none
  end_date : Option (Option String) := none
  deriving DecidableEq

/-- builds `update_data` from the form (including the date parsing that can
raise) and applies the DEVELOPER restriction that drops assignee changes. -/
def mkUpdateData (form : UpdateForm) (user : UserRec) : Except Err UpdateData := do
  let start_date ← match form.start_date with
    | none => pure none
    | some s => (parse_form_date s).map some
  let end_date ← match form.end_date with
    | none => pure none
    | some s => (parse_form_date s).map some
  let ud : UpdateData :=
    { title := form.title
      description := form.description
      sprint_number := form.sprint_number.map clean_str
      assignee := form.assignee
      assignee_id := form.assignee_id.map clean_int
      reviewer := form.reviewer.map clean_str
      status := form.status
      parent_issue_id := form.parent_issue_id.map clean_int
      priority := form.priority
      issue_type := form.issue_type
      start_date := start_date
      end_date := end_date }
  if user.role == "DEVELOPER" then
    pure { ud with assignee := none, assignee_id := none }
  else
    pure ud

/-- Python `str(x)` on an optional integer: `None` renders as "None". -/
def strOfOptNat (v : Option Nat) : String :=
  match v with
  | none => "None"
  | some n => toString n

/-- `str(old_val) if old_val is not None else ""` on an optional string. -/
def normOptStr (v : Option String) : String := v.getD ""

/-- `str(old_val) if old_val is not None else ""` on an optional integer. -/
def normOptNat (v : Option Nat) : String :=
  match v with
  | none => ""
  | some n => toString n

/-- step 0 of the handler: the parent-change block, validating the
hierarchy (with the possibly non-terminating walk) and recording the one
unnormalized `str(...)` diff the source writes for `parent_issue_id`. -/
def parentStage (db : DB) (ud : UpdateData) (story : Issue) (fuel : Nat) :
    Option (Except Err (Issue × List Chg)) :=
  match ud.parent_issue_id with
  | none => some (Except.ok (story, []))
  | some new_parent_id =>
    if new_parent_id == story.parent_issue_id then some (Except.ok (story, []))
    else
      match _validate_hierarchy db new_parent_id story.issue_type (some story.id) fuel with
      | none => none
      | some (Except.error e) => some (Except.error e)
      | some (Except.ok ()) =>
        some (Except.ok
          ({ story with parent_issue_id := new_parent_id },
           [("parent_issue_id", strOfOptNat story.parent_issue_id, strOfOptNat new_parent_id)]))

/-- step 1 of the handler: the Done-gate.  Only a requested status that
differs from the current one and spells "done" case-insensitively is gated,
and it is blocked exactly when some direct child is not "Done". -/
def statusGate (db : DB) (ud : UpdateData) (story : Issue) : Except Err Unit :=
  match ud.status with
  | none => Except.ok ()
  | some new_status =>
    if some new_status != story.status then
      if strLower new_status == "done" then
        let pending_children := (childrenOf db story.id).filter
          (fun child => strLower (child.status.getD "") != "done")
        if pending_children.length > 0 then
          Except.error (Err.blockedByChildren pending_children.length)
        else Except.ok ()
      else Except.ok ()
    else Except.ok ()

/-! step 2 of the handler: the field loop, unrolled in the dict insertion
order `title, description, sprint_number, assignee, assignee_id, reviewer,
status, (parent_issue_id skipped), priority, issue_type, start_date,
end_date`.  Each step compares `str(old)`/`str(new)` with `None` rendered
as the empty string, records a diff on inequality and writes the field. -/

def upd_title (ud : UpdateData) (acc : Issue × List Chg) : Issue × List Chg :=
  match ud.title with
  | none => acc
  | some v =>
    if acc.1.title != v then ({ acc.1 with title := v }, acc.2 ++ [("title", acc.1.title, v)])
    else acc

def upd_description (ud : UpdateData) (acc : Issue × List Chg) : Issue × List Chg :=
  match ud.description with
  | none => acc
  | some v =>
    if acc.1.description != v then
      ({ acc.1 with description := v }, acc.2 ++ [("description", acc.1.description, v)])
    else acc

def upd_sprint_number (ud : UpdateData) (acc : Issue × List Chg) : Issue × List Chg :=
  match ud.sprint_number with
  | none => acc
  | some v =>
    let str_old := normOptStr acc.1.sprint_number
    let str_new := normOptStr v
    if str_old != str_new then
      ({ acc.1 with sprint_number := v }, acc.2 ++ [("sprint_number", str_old, str_new)])
    else acc

def upd_assignee (ud : UpdateData) (acc : Issue × List Chg) : Issue × List Chg :=
  match ud.assignee with
  | none => acc
  | some v =>
    if acc.1.assignee != v then
      ({ acc.1 with assignee := v }, acc.2 ++ [("assignee", acc.1.assignee, v)])
    else acc

/-- on an `assignee_id` change the handler also rewrites the display
`assignee` to the new user's name, or "Unknown" when the id resolves to
nobody (including the `None` case). -/
def upd_assignee_id (db : DB) (ud : UpdateData) (acc : Issue × List Chg) : Issue × List Chg :=
  match ud.assignee_id with
  | none => acc
  | some v =>
    let str_old := normOptNat acc.1.assignee_id
    let str_new := normOptNat v
    if str_old != str_new then
      let assignee_name := match v.bind (findUser db) with
                           | some u => u.username
                           | none => "Unknown"
      ({ acc.1 with assignee_id := v, assignee := assignee_name },
       acc.2 ++ [("assignee_id", str_old, str_new)])
    else acc

def upd_reviewer (ud : UpdateData) (acc : Issue × List Chg) : Issue × List Chg :=
  match ud.reviewer with
  | none => acc
  | some v =>
    let str_old := normOptStr acc.1.reviewer
    let str_new := normOptStr v
    if str_old != str_new then
      ({ acc.1 with reviewer := v }, acc.2 ++ [("reviewer", str_old, str_new)])
    else acc

def upd_status (ud : UpdateData) (acc : Issue × List Chg) : Issue × List Chg :=
  match ud.status with
  | none => acc
  | some v =>
    let str_old := normOptStr acc.1.status
    if str_old != v then
      ({ acc.1 with status := some v }, acc.2 ++ [("status", str_old, v)])
    else acc

def upd_priority (ud : UpdateData) (acc : Issue × List Chg) : Issue × List Chg :=
  match ud.priority with
  | none => acc
  | some v =>
    let str_old := normOptStr acc.1.priority
    if str_old != v then
      ({ acc.1 with priority := some v }, acc.2 ++ [("priority", str_old, v)])
    else acc

def upd_issue_type (ud : UpdateData) (acc : Issue × List Chg) : Issue × List Chg :=
  match ud.issue_type with
  | none => acc
  | some v =>
    let str_old := normOptStr acc.1.issue_type
    if str_old != v then
      ({ acc.1 with issue_type := some v }, acc.2 ++ [("issue_type", str_old, v)])
    else acc

def upd_start_date (ud : UpdateData) (acc : Issue × List Chg) : Issue × List Chg :=
  match ud.start_date with
  | none => acc
  | some v =>
    let str_old := normOptStr acc.1.start_date
    let str_new := normOptStr v
    if str_old != str_new then
      ({ acc.1 with start_date := v }, acc.2 ++ [("start_date", str_old, str_new)])
    else acc

def upd_end_date (ud : UpdateData) (acc : Issue × List Chg) : Issue × List Chg :=
  match ud.end_date with
  | none => acc
  | some v =>
    let str_old := normOptStr acc.1.end_date
    let str_new := normOptStr v
    if str_old != str_new then
      ({ acc.1 with end_date := v }, acc.2 ++ [("end_date", str_old, str_new)])
    else acc

/-- the whole field loop. -/
def applyUpdateFields (db : DB) (ud : UpdateData) (story : Issue) : Issue × List Chg :=
  upd_end_date ud (upd_start_date ud (upd_issue_type ud (upd_priority ud
    (upd_status ud (upd_reviewer ud (upd_assignee_id db ud
      (upd_assignee ud (upd_sprint_number ud (upd_description ud
        (upd_title ud (story, [])))))))))))

/-- the success tail of the update handler: run the field loop, write one
aggregated audit row for the combined parent+field diffs, and commit the
updated row. -/
def updateCommit (db : DB) (user : UserRec) (ud : UpdateData) (story1 : Issue)
    (parent_changes : List Chg) : DB × Issue :=
  let fields := applyUpdateFields db ud story1
  let changes := parent_changes ++ fields.2
  let db2 := _log_activity_aggregated db fields.1.id (some user.id) "UPDATED" changes
  let issues2 := db2.issues.map (fun s => if s.id == fields.1.id then fields.1 else s)
  ({ db2 with issues := issues2 }, fields.1)

/-- `PUT /user-stories/{id}`: lookup (404) → project-active gate →
`can_update_issue` → form cleaning (dates can raise) → parent change with
hierarchy validation → Done-gate → field loop → one aggregated audit row →
commit.  The outer `Option` is `none` exactly when the ancestor walk inside
the hierarchy validation exceeds the given fuel. -/
def update_story (db : DB) (user : UserRec) (id : Nat) (form : UpdateForm) (fuel : Nat) :
    Option (Except Err (DB × Issue)) :=
  match findIssue db id with
  | none => some (Except.error Err.notFound)
  | some story =>
    match findProject db story.project_id with
    | none => some (Except.error Err.internalError)
    | some project =>
      match check_project_active project.is_active with
      | Except.error e => some (Except.error e)
      | Except.ok () =>
        if !can_update_issue user story db then some (Except.error Err.permissionDenied)
        else
          match mkUpdateData form user with
          | Except.error e => some (Except.error e)
          | Except.ok ud =>
            match parentStage db ud story fuel with
            | none => none
            | some (Except.error e) => some (Except.error e)
            | some (Except.ok (story1, parent_changes)) =>
              match statusGate db ud story1 with
              | Except.error e => some (Except.error e)
              | Except.ok () => some (Except.ok (updateCommit db user ud story1 parent_changes))

/-! ### `POST /user-stories` — `create_user_story` -/

/-- the raw multipart form of the create route. -/
structure CreateForm where
  project_id : Nat
  release_number : Option String := none
  sprint_number : Option String := none
  assignee : String
  assignee_id : Option String := none
  assigned_to : Option String := none
  reviewer : Option String := none
  title : String
  description : String
  issue_type : Option String := none
  priority : Option String := none
  status : String
  start_date : Option String := none
  end_date : Option String := none
  team_id : Option String := none
  parent_issue_id : Option String := none
  deriving DecidableEq

/-- `parse_optional_int`: `None`, empty and whitespace-only strings and
unparsable strings all become `None`. -/
def parse_optional_int (v : Option String) : Option Nat :=
  match v with
  | none => none
  | some s => if strTrim s == "" then none else strToNatQ (strTrim s)

/-- outcome of the assignee-resolution block at the top of the handler:
the effective `assignee_id` and display name, or a 404 when an explicit
assignee id resolves to no user. -/
def resolveAssignee (db : DB) (user : UserRec) (form : CreateForm) :
    Except Err (Option Nat × String) :=
  let parsed_assignee_id :=
    match form.assigned_to with
    | some _ => parse_optional_int form.assigned_to
    | none => parse_optional_int form.assignee_id
  let parsed_team_id := parse_optional_int form.team_id
  let defaultName := if strTrim form.assignee == "" then "Unassigned" else form.assignee
  if user.role == "DEVELOPER" then
    let led_teams := db.teams.filter (fun t => t.lead_id == some user.id)
    let is_team_lead := match parsed_team_id with
                        | some tid => led_teams.any (fun t => t.id == tid)
                        | none => false
    let is_project_lead := led_teams.any (fun t => t.project_id == form.project_id)
    if is_team_lead || is_project_lead then
      match parsed_assignee_id with
      | some aid =>
        match findUser db aid with
        | none => Except.error Err.notFound
        | some target => Except.ok (some aid, target.username)
      | none => Except.ok (none, defaultName)
    else
      Except.ok (some user.id, user.username)
  else
    match parsed_assignee_id with
    | some aid =>
      match findUser db aid with
      | none => Except.error Err.notFound
      | some target => Except.ok (some aid, target.username)
    | none => Except.ok (none, defaultName)

/-- the auto-sync block inside the commit `try`: when both an assignee and a
team are given, a missing membership is added on the fly.  Lookup failures
here happen inside the catch-all `except` and surface as a 500. -/
def syncTeamMembers (db : DB) (aid : Option Nat) (tid : Option Nat) : Except Err DB :=
  match aid, tid with
  | some a, some t =>
    match findTeam db t with
    | none => Except.error Err.internalError
    | some team =>
      if team.members.contains a then Except.ok db
      else
        match findUser db a with
        | none => Except.error Err.internalError
        | some _ =>
          let teams2 := db.teams.map
            (fun tm => if tm.id == t then { tm with members := tm.members ++ [a] } else tm)
          Except.ok { db with teams := teams2 }
  | _, _ => Except.ok db

/-- the success tail of the create handler: build the row (with the next
autoincrement id), append it, and write the one CREATED audit row. -/
def createCommit (db1 : DB) (user : UserRec) (form : CreateForm) (project : ProjectRec)
    (aid : Option Nat) (assignee_name : String) (story_code : String) : DB × Issue :=
  let new_story : Issue :=
    { id := db1.next_issue_id
      project_id := form.project_id
      project_name := project.name
      story_pointer := story_code
      release_number := form.release_number
      sprint_number := form.sprint_number
      assignee := assignee_name
      assignee_id := aid
      reviewer := form.reviewer
      title := form.title
      description := form.description
      issue_type := form.issue_type
      priority := form.priority
      status := some form.status
      start_date := form.start_date
      end_date := form.end_date
      team_id := parse_optional_int form.team_id
      parent_issue_id := parse_optional_int form.parent_issue_id
      created_by := some user.id }
  let db2 := { db1 with issues := db1.issues ++ [new_story],
                        next_issue_id := db1.next_issue_id + 1 }
  let db3 := _log_activity_aggregated db2 new_story.id (some user.id) "CREATED"
    [("Status", "None", form.status)]
  (db3, new_story)

/-- `POST /user-stories`: assignee resolution → project lookup (404) →
project-active gate → `can_create_issue` → hierarchy validation (no cycle
walk: `current_issue_id` is `None` on create) → code allocation →
member auto-sync → insert → one `CREATED` audit row. -/
def create_user_story (db : DB) (user : UserRec) (form : CreateForm) :
    Except Err (DB × Issue) := do
  let (aid, assignee_name) ← resolveAssignee db user form
  let parsed_team_id := parse_optional_int form.team_id
  let parsed_parent_issue_id := parse_optional_int form.parent_issue_id
  let project ← match findProject db form.project_id with
    | none => Except.error Err.notFound
    | some p => Except.ok p
  let () ← check_project_active project.is_active
  if !can_create_issue user form.project_id parsed_team_id db then
    Except.error Err.permissionDenied
  else do
    let () ← match _validate_hierarchy db parsed_parent_issue_id form.issue_type none 0 with
      | some r => r
      | none => Except.error Err.internalError
    let story_code ← _generate_story_code db form.project_id
    let db1 ← syncTeamMembers db aid parsed_team_id
    Except.ok (createCommit db1 user form project aid assignee_name story_code)

deriving instance DecidableEq for Except

/-! ### Concrete states used by witnesses and counterexamples -/

def uLead : UserRec :=
  { id := 10, username := "lead", email := "lead@x", role := "DEVELOPER", view_mode_col := "DEVELOPER" }

def uDev : UserRec :=
  { id := 20, username := "dev", email := "dev@x", role := "DEVELOPER", view_mode_col := "DEVELOPER" }

def uAdmin : UserRec :=
  { id := 1, username := "root", email := "a@x", role := "ADMIN", view_mode_col := "ADMIN" }

def uStranger : UserRec :=
  { id := 99, username := "s", email := "s@x", role := "TESTER", view_mode_col := "DEVELOPER" }

def prj : ProjectRec :=
  { id := 1, name := "Engine", prefixVal := "ENG", owner_id := some 1, is_active := true }

def tm7 : TeamRec := { id := 7, project_id := 1, lead_id := some 10, members := [10, 20] }

def iss100 : Issue :=
  { id := 100, project_id := 1, project_name := "Engine", story_pointer := "ENG-0001",
    release_number := none, sprint_number := none, assignee := "dev", assignee_id := some 20,
    reviewer := none, title := "X", description := "d", issue_type := some "Story",
    priority := some "Medium", status := some "In Progress", start_date := none, end_date := none,
    team_id := some 7, parent_issue_id := none, created_by := some 10 }

def exDB : DB :=
  { users := [uAdmin, uLead, uDev, uStranger], projects := [prj], teams := [tm7],
    issues := [iss100], activities := [], next_issue_id := 101, next_activity_id := 1, now := 5 }

def epic200 : Issue :=
  { iss100 with id := 200, issue_type := some "Epic", story_pointer := "ENG-0002", title := "E",
                status := some "In Progress", assignee_id := none }

def child201 : Issue :=
  { iss100 with id := 201, issue_type := some "Story", story_pointer := "ENG-0003",
                parent_issue_id := some 200, status := some "In Progress" }

def exDB2 : DB := { exDB with issues := [iss100, epic200, child201], next_issue_id := 202 }

def iA : Issue := { iss100 with id := 300, issue_type := some "Epic", parent_issue_id := none }

def iB : Issue := { iss100 with id := 301, issue_type := some "Story", parent_issue_id := some 300 }

def iC : Issue := { iss100 with id := 302, issue_type := some "Task", parent_issue_id := some 301 }

def exDB3 : DB := { exDB with issues := [iA, iB, iC] }

/-! ### C4 — parent-type acceptance -/

/-- the claim's type-compatibility table, written from the spec's words:
Epic never takes a parent, Story under Epic, Task under Story, Subtask under
Task, Bug under Story or Task. -/
def specParentTypeOk (childType : String) (ptype : Option String) : Bool :=
  if childType == "Epic" then false
  else if childType == "Story" then ptype == some "Epic"
  else if childType == "Task" then ptype == some "Story"
  else if childType == "Subtask" then ptype == some "Task"
  else if childType == "Bug" then ptype == some "Story" || ptype == some "Task"
  else true

/-- C4: with no candidate parent, validation succeeds for exactly the four
non-Subtask issue types; with a candidate parent that resolves, the type
dimension is decided exactly by the spec's table (every mismatch being an
InvalidParent-class rejection); a candidate parent that does not resolve is
an InvalidParent-class rejection as well. -/
theorem C4_parent_type_acceptance :
    (∀ (db : DB) (cur : Option Nat) (fuel : Nat) (t : String),
        t ∈ ["Epic", "Story", "Task", "Bug", "Subtask"] →
        (_validate_hierarchy db none (some t) cur fuel = some (Except.ok ()) ↔ t ≠ "Subtask")) ∧
    (∀ (db : DB) (fuel : Nat) (pid : Nat) (parent : Issue) (t : String),
        findIssue db pid = some parent →
        t ∈ ["Epic", "Story", "Task", "Bug", "Subtask"] →
        _validate_hierarchy db (some pid) (some t) none fuel =
          some (if specParentTypeOk t parent.issue_type then Except.ok ()
                else Except.error (Err.invalidParentType t))) ∧
    (∀ (db : DB) (fuel : Nat) (pid : Nat) (t : Option String) (cur : Option Nat),
        findIssue db pid = none →
        _validate_hierarchy db (some pid) t cur fuel = some (Except.error Err.parentNotFound)) := by
  refine ⟨?_, ?_, ?_⟩
  · intro db cur fuel t ht
    simp only [List.mem_cons, List.mem_singleton, List.not_mem_nil, or_false] at ht
    rcases ht with rfl | rfl | rfl | rfl | rfl <;>
      simp [_validate_hierarchy]
  · intro db fuel pid parent t hfind ht
    simp only [List.mem_cons, List.mem_singleton, List.not_mem_nil, or_false] at ht
    rcases ht with rfl | rfl | rfl | rfl | rfl <;>
      · simp only [_validate_hierarchy, hfind]
        rcases hp : parent.issue_type with _ | pt
        · simp [hierarchyTypeCheck, specParentTypeOk]
        · by_cases h1 : pt = "Epic" <;> by_cases h2 : pt = "Story" <;> by_cases h3 : pt = "Task" <;>
            simp [hierarchyTypeCheck, specParentTypeOk, h1, h2, h3]
  · intro db fuel pid t cur hfind
    simp [_validate_hierarchy, hfind]

/-- witness for C4: a Story under an Epic parent in a concrete store is
accepted, matching the spec table. -/
theorem C4_parent_type_acceptance_witness :
    _validate_hierarchy exDB3 (some 300) (some "Story") none 0 =
      some (if specParentTypeOk "Story" iA.issue_type then Except.ok ()
            else Except.error (Err.invalidParentType "Story")) :=
  C4_parent_type_acceptance.2.1 exDB3 0 300 iA "Story" (by decide) (by decide)

/-! ### C5 — code allocation -/

/-- the claim's prefix rule: the configured prefix, or the first two
characters of the project name uppercased when the prefix is empty. -/
def specCodePrefix (project : ProjectRec) : String :=
  if project.prefixVal != "" then project.prefixVal else strUpper (strTake project.name 2)

/-- numeric suffixes of every stored code sharing the prefix, system-wide;
codes with a non-numeric suffix are dropped, never errors. -/
def specNumericSuffixes (db : DB) (pfx : String) : List Nat :=
  db.issues.filterMap (fun s =>
    if strStartsWith (pfx ++ "-") s.story_pointer then
      strToNatQ ((strSplitDash s.story_pointer).getLastD "")
    else none)

/-- the claim's allocation formula. -/
def specNextCode (db : DB) (project : ProjectRec) : String :=
  let pfx := specCodePrefix project
  pfx ++ "-" ++ pad4 ((specNumericSuffixes db pfx).foldr max 0 + 1)

theorem foldr_max_max (L : List Nat) (a b : Nat) :
    L.foldr max (max a b) = max a (L.foldr max b) := by
  induction L with
  | nil => rfl
  | cons x L ih =>
    simp only [List.foldr_cons, ih]
    exact (Nat.max_left_comm x a (L.foldr max b))

theorem maxloop_eq_foldr (p : Issue → Bool) (parse : Issue → Option Nat) :
    ∀ (l : List Issue) (acc : Nat),
      (l.filter p).foldl
        (fun a s => match parse s with
                    | some num => if num > a then num else a
                    | none => a) acc
      = (l.filterMap (fun s => if p s then parse s else none)).foldr max acc := by
  intro l
  induction l with
  | nil => intro acc; rfl
  | cons s l ih =>
    intro acc
    by_cases hp : p s
    · rcases hn : parse s with _ | num
      · simp [List.filter_cons, List.filterMap_cons, hp, hn, ih]
      · simp only [List.filter_cons, List.filterMap_cons, hp, hn, if_pos, List.foldl_cons,
          List.foldr_cons]
        have hstep : (if num > acc then num else acc) = max acc num := by
          rw [Nat.max_def]; split <;> split <;> omega
        rw [hstep, ih, Nat.max_comm acc num, ← foldr_max_max]
    · simp [List.filter_cons, List.filterMap_cons, hp, ih]

/-- C5: for every project in the store, `_generate_story_code` returns
exactly the spec formula `PREFIX-NNNN` — the prefix rule, one plus the
maximum numeric suffix over all codes sharing the prefix system-wide,
zero-padded to at least four digits — and `PREFIX-0001` when no code with
the prefix exists. -/
theorem C5_code_allocation :
    ∀ (db : DB) (project_id : Nat) (project : ProjectRec),
      findProject db project_id = some project →
      _generate_story_code db project_id = Except.ok (specNextCode db project) ∧
      (specNumericSuffixes db (specCodePrefix project) = [] →
        _generate_story_code db project_id = Except.ok (specCodePrefix project ++ "-0001")) := by
  intro db project_id project hfind
  have hmain : _generate_story_code db project_id = Except.ok (specNextCode db project) := by
    simp only [_generate_story_code, hfind, specNextCode, specCodePrefix, specNumericSuffixes]
    rw [maxloop_eq_foldr]
  refine ⟨hmain, ?_⟩
  intro hempty
  rw [hmain]
  simp only [specNextCode, hempty, List.foldr_nil]
  have h1 : pad4 (0 + 1) = "0001" := by decide
  have h2 : ("-" : String) ++ "0001" = "-0001" := by decide
  rw [h1, String.append_assoc, h2]

/-- witness for C5: in the concrete store the next Engine code is the spec
formula, i.e. ENG-0002. -/
theorem C5_code_allocation_witness :
    _generate_story_code exDB 1 = Except.ok (specNextCode exDB prj) ∧
    specNextCode exDB prj = "ENG-0002" :=
  ⟨(C5_code_allocation exDB 1 prj (by decide)).1, by decide⟩

/-! ### C9 — create permission -/

/-- the claim's create rule for a non-admin actor, written from the spec's
words: an active target project, a supplied team that exists, belongs to the
target project, and is led by the actor. -/
def specCreatePermitted (user : UserRec) (project_id : Nat) (team_id : Option Nat) (db : DB) : Prop :=
  (∃ project, findProject db project_id = some project ∧ project.is_active = true) ∧
  (∃ tid team, team_id = some tid ∧ findTeam db tid = some team ∧
    team.project_id = project_id ∧ team.lead_id = some user.id)

/-- the `can_create_issue` predicate as one Boolean formula. -/
theorem can_create_issue_eq (user : UserRec) (project_id : Nat) (team_id : Option Nat) (db : DB) :
    can_create_issue user project_id team_id db =
      (match findProject db project_id with
       | none => false
       | some project =>
         project.is_active &&
           (user.role == "ADMIN" ||
             (match team_id with
              | none => false
              | some tid =>
                match findTeam db tid with
                | none => false
                | some team => team.lead_id == some user.id && team.project_id == project_id))) := by
  unfold can_create_issue
  cases hp : findProject db project_id with
  | none => rfl
  | some project =>
    by_cases ha : project.is_active <;> by_cases hr : (user.role == "ADMIN") = true
    · simp [ha, hr]
    · cases team_id with
      | none => simp [ha, hr]
      | some tid =>
        cases ht : findTeam db tid with
        | none => simp [ha, hr, ht]
        | some team =>
          by_cases hl : (team.lead_id == some user.id) = true <;>
            by_cases hm : (team.project_id == project_id) = true <;>
            simp [ha, hr, ht, hl, hm, bne]
    · simp [ha, hr]
    · simp [ha, hr]

theorem check_project_active_ok {b : Bool} {v : Unit}
    (h : check_project_active b = Except.ok v) : b = true := by
  cases b
  · exact absurd h (by simp [check_project_active])
  · rfl

/-- C9: a non-admin may create iff the spec rule holds; an ADMIN may create
iff the project exists and is active; and a successful run of the create
endpoint implies the `can_create_issue` gate passed (so creation in an
inactive or missing project is impossible for every actor). -/
theorem C9_create_permission :
    (∀ (user : UserRec) (project_id : Nat) (team_id : Option Nat) (db : DB),
        user.role ≠ "ADMIN" →
        (can_create_issue user project_id team_id db = true ↔
          specCreatePermitted user project_id team_id db)) ∧
    (∀ (user : UserRec) (project_id : Nat) (team_id : Option Nat) (db : DB),
        user.role = "ADMIN" →
        (can_create_issue user project_id team_id db = true ↔
          ∃ project, findProject db project_id = some project ∧ project.is_active = true)) ∧
    (∀ (db : DB) (user : UserRec) (form : CreateForm) (r : DB × Issue),
        create_user_story db user form = Except.ok r →
        can_create_issue user form.project_id (parse_optional_int form.team_id) db = true ∧
        ∃ project, findProject db form.project_id = some project ∧ project.is_active = true) := by
  refine ⟨?_, ?_, ?_⟩
  · intro user project_id team_id db hrole
    rw [can_create_issue_eq]
    cases hp : findProject db project_id with
    | none =>
      simp only [specCreatePermitted, hp]
      constructor
      · intro h; cases h
      · rintro ⟨⟨q, hq, -⟩, -⟩; cases hq
    | some project =>
      constructor
      · intro h
        simp only [Bool.and_eq_true, Bool.or_eq_true, beq_iff_eq] at h
        obtain ⟨hact, hx⟩ := h
        rcases hx with hr | hx
        · exact absurd hr hrole
        · split at hx
          · cases hx
          · rename_i tid
            split at hx
            · cases hx
            · rename_i team ht
              simp only [Bool.and_eq_true, beq_iff_eq] at hx
              exact ⟨⟨project, hp, hact⟩, tid, team, rfl, ht, hx.2, hx.1⟩
      · rintro ⟨⟨project2, hp2, hact⟩, tid, team, rfl, ht, hpm, hl⟩
        rw [hp] at hp2
        cases hp2
        simp [hact, ht, hl, hpm]
  · intro user project_id team_id db hrole
    rw [can_create_issue_eq]
    cases hp : findProject db project_id with
    | none =>
      constructor
      · intro h; cases h
      · rintro ⟨q, hq, -⟩; cases hq
    | some project =>
      constructor
      · intro h
        simp only [Bool.and_eq_true] at h
        exact ⟨project, rfl, h.1⟩
      · rintro ⟨project2, hp2, hact⟩
        cases hp2
        simp [hact, hrole]
  · intro db user form r h
    unfold create_user_story at h
    simp only [bind, Except.bind, pure, Except.pure] at h
    split at h
    · cases h
    · split at h
      · cases h
      · rename_i project hp
        split at h
        · cases h
        · rename_i v hcpa
          have ha : project.is_active = true := check_project_active_ok hcpa
          split at h
          · cases h
          · rename_i hcc
            have : can_create_issue user form.project_id (parse_optional_int form.team_id) db = true := by
              rcases hb : can_create_issue user form.project_id (parse_optional_int form.team_id) db
              · rw [hb] at hcc; exact absurd rfl hcc
              · rfl
            exact ⟨this, project, hp, ha⟩

/-- witness for C9: the concrete team lead satisfies the spec rule and is
permitted to create under their own team. -/
theorem C9_create_permission_witness :
    (can_create_issue uLead 1 (some 7) exDB = true ↔ specCreatePermitted uLead 1 (some 7) exDB) ∧
    can_create_issue uLead 1 (some 7) exDB = true :=
  ⟨C9_create_permission.1 uLead 1 (some 7) exDB (by decide), by decide⟩

/-! ### C1 — delete permission (code bug)

The delete route never consults `can_delete_issue`: in a concrete active
project, the assignee of an issue — who is neither an admin nor the team
lead, and whom `can_delete_issue` denies — successfully deletes it, and the
row is gone afterwards. -/

/-- C1: evaluation of the delete endpoint at the failing input.  The
permission predicate denies the assignee, yet the endpoint deletes the
story and reports success. -/
theorem C1_delete_without_permission_check :
    can_delete_issue uDev iss100 exDB = false ∧
    uDev.role ≠ "ADMIN" ∧ uDev.is_master_admin = false ∧
    tm7.lead_id ≠ some uDev.id ∧ iss100.assignee_id = some uDev.id ∧
    prj.is_active = true ∧
    delete_user_story exDB uDev 100 =
      Except.ok ({ exDB with issues := [] }, "Story deleted successfully") ∧
    (delete_user_story exDB uDev 100).toOption.map (fun r => findIssue r.1 100) = some none := by
  refine ⟨by decide, by decide, by decide, by decide, by decide, by decide, by decide, by decide⟩

/-! ### C6 — the Done gate -/

/-- C6: with a found story in an active project, a permitted user, parseable
form data and no parent change, the status gate behaves exactly as claimed:
a requested status equal (case-insensitively) to "Done" and different from
the current status is rejected with the pending-children count when some
direct child is not Done, passes when all children are Done, and any other
requested status — or a request equal to the current status — is never
blocked by the gate. -/
theorem C6_done_gate :
    (∀ (db : DB) (user : UserRec) (id : Nat) (form : UpdateForm) (fuel : Nat)
        (story : Issue) (project : ProjectRec) (ud : UpdateData) (new_status : String),
        findIssue db id = some story →
        findProject db story.project_id = some project →
        project.is_active = true →
        can_update_issue user story db = true →
        mkUpdateData form user = Except.ok ud →
        ud.parent_issue_id = none →
        ud.status = some new_status →
        some new_status ≠ story.status →
        strLower new_status = "done" →
        ((childrenOf db story.id).filter
            (fun child => strLower (child.status.getD "") != "done")).length > 0 →
        update_story db user id form fuel =
          some (Except.error (Err.blockedByChildren
            ((childrenOf db story.id).filter
              (fun child => strLower (child.status.getD "") != "done")).length))) ∧
    (∀ (db : DB) (ud : UpdateData) (story : Issue),
        (∀ new_status, ud.status = some new_status →
          (some new_status = story.status ∨ strLower new_status ≠ "done" ∨
            ((childrenOf db story.id).filter
              (fun child => strLower (child.status.getD "") != "done")).length = 0)) →
        statusGate db ud story = Except.ok ()) ∧
    (∀ (db : DB) (user : UserRec) (id : Nat) (form : UpdateForm) (fuel : Nat)
        (story : Issue) (project : ProjectRec) (ud : UpdateData),
        findIssue db id = some story →
        findProject db story.project_id = some project →
        project.is_active = true →
        can_update_issue user story db = true →
        mkUpdateData form user = Except.ok ud →
        ud.parent_issue_id = none →
        statusGate db ud story = Except.ok () →
        ∃ db2 story2, update_story db user id form fuel = some (Except.ok (db2, story2))) := by
  refine ⟨?_, ?_, ?_⟩
  · intro db user id form fuel story project ud new_status hfind hproj hact hperm hud hpar
      hst hne hdone hpend
    have hcpa : check_project_active project.is_active = Except.ok () := by
      simp [check_project_active, hact]
    have hperm2 : (!can_update_issue user story db) = false := by simp [hperm]
    have hps : parentStage db ud story fuel = some (Except.ok (story, [])) := by
      unfold parentStage; rw [hpar]
    have hgate : statusGate db ud story =
        Except.error (Err.blockedByChildren
          ((childrenOf db story.id).filter
            (fun child => strLower (child.status.getD "") != "done")).length) := by
      unfold statusGate
      simp only [hst]
      rw [if_pos (by simp [bne_iff_ne, hne]), if_pos (by simp [hdone]), if_pos hpend]
    unfold update_story
    simp only [hfind, hproj, hcpa, hperm2, hud, hps, hgate, Bool.false_eq_true, if_false]
  · intro db ud story hcond
    unfold statusGate
    cases hst : ud.status with
    | none => rfl
    | some new_status =>
      rcases hcond new_status hst with heq | hnd | hzero
      · simp [← heq]
      · simp [hnd]
      · simp [hzero]
  · intro db user id form fuel story project ud hfind hproj hact hperm hud hpar hgate
    have hcpa : check_project_active project.is_active = Except.ok () := by
      simp [check_project_active, hact]
    have hperm2 : (!can_update_issue user story db) = false := by simp [hperm]
    have hps : parentStage db ud story fuel = some (Except.ok (story, [])) := by
      unfold parentStage; rw [hpar]
    unfold update_story
    simp only [hfind, hproj, hcpa, hperm2, hud, hps, hgate, Bool.false_eq_true, if_false]
    exact ⟨_, _, rfl⟩

/-- witness for C6: marking the concrete Epic Done while its one child Story
is In Progress is rejected with pending count 1. -/
theorem C6_done_gate_witness :
    update_story exDB2 uAdmin 200 { status := some "Done" } 9 =
      some (Except.error (Err.blockedByChildren
        ((childrenOf exDB2 epic200.id).filter
          (fun child => strLower (child.status.getD "") != "done")).length)) ∧
    ((childrenOf exDB2 epic200.id).filter
      (fun child => strLower (child.status.getD "") != "done")).length = 1 :=
  ⟨C6_done_gate.1 exDB2 uAdmin 200 { status := some "Done" } 9 epic200 prj
    { status := some "Done" } "Done" (by decide) (by decide) (by decide) (by decide)
    (by decide) (by decide) (by decide) (by decide) (by decide) (by decide), by decide⟩

/-! ### C2 — the history route has no permission gate -/

def act1 : Activity :=
  { id := 1, story_id := 100, user_id := some 1, action := "CREATED", changes := "Issue Created",
    change_count := 1, created_at := 3 }

def act2 : Activity :=
  { id := 2, story_id := 100, user_id := some 1, action := "UPDATED", changes := "title: a → b",
    change_count := 1, created_at := 7 }

def actDB : DB := { exDB with activities := [act1, act2] }

/-- C2: the history route ignores the caller entirely — any two callers get
the same response; that response is always a permutation of the story's full
activity list sorted by `created_at` descending; and the activity route
serving the same rows rejects a caller that `can_view_issue` denies, while
the history route still hands that caller the full list. -/
theorem C2_history_bypasses_permissions :
    (∀ (u1 u2 : UserRec) (db : DB) (id : Nat),
        get_story_history_for_caller u1 db id = get_story_history_for_caller u2 db id) ∧
    (∀ (db : DB) (id : Nat),
        (get_story_history db id).Perm (db.activities.filter (fun a => a.story_id == id)) ∧
        List.Pairwise (fun a b => b.created_at ≤ a.created_at) (get_story_history db id)) ∧
    (∀ (db : DB) (user : UserRec) (id : Nat) (story : Issue),
        findIssue db id = some story →
        can_view_issue user story db = false →
        get_story_activity db user id = Except.error Err.accessDenied ∧
        get_story_history db id = activityRowsDesc db id) := by
  refine ⟨?_, ?_, ?_⟩
  · intro u1 u2 db id; rfl
  · intro db id
    constructor
    · exact List.mergeSort_perm _ _
    · have hs := @List.sorted_mergeSort Activity
        (fun (a b : Activity) => Nat.ble b.created_at a.created_at)
        (fun a b c hab hbc => by
          simp only [Nat.ble_eq] at hab hbc ⊢; omega)
        (fun a b => by
          rcases Nat.le_total b.created_at a.created_at with h | h <;>
            simp [Nat.ble_eq, h])
        (db.activities.filter (fun a => a.story_id == id))
      exact hs.imp (fun h => by simpa [Nat.ble_eq] using h)
  · intro db user id story hfind hview
    refine ⟨?_, rfl⟩
    simp [get_story_activity, hfind, hview]

/-- witness for C2: the concrete outsider fails `can_view_issue`, is denied
by the activity route, and still receives the full history from the
unauthenticated history route. -/
theorem C2_history_bypasses_permissions_witness :
    get_story_activity actDB uStranger 100 = Except.error Err.accessDenied ∧
    get_story_history actDB 100 = activityRowsDesc actDB 100 :=
  C2_history_bypasses_permissions.2.2 actDB uStranger 100 iss100 (by decide) (by decide)

/-! ### C8 — diff normalization

The spec-side diff rule, one function per field, comparing the stored value
against the patch value after rendering both to strings with `None` mapped
to the empty string and no whitespace trimming (date patch values were
already truncated to their `YYYY-MM-DD` ten-character slice when parsed). -/

def diff_title (old : String) (v : Option String) : List Chg :=
  match v with
  | some v => if old != v then [("title", old, v)] else []
  | none => []

def diff_description (old : String) (v : Option String) : List Chg :=
  match v with
  | some v => if old != v then [("description", old, v)] else []
  | none => []

def diff_sprint_number (old : Option String) (v : Option (Option String)) : List Chg :=
  match v with
  | some v => if normOptStr old != normOptStr v then
      [("sprint_number", normOptStr old, normOptStr v)] else []
  | none => []

def diff_assignee (old : String) (v : Option String) : List Chg :=
  match v with
  | some v => if old != v then [("assignee", old, v)] else []
  | none => []

def diff_assignee_id (old : Option Nat) (v : Option (Option Nat)) : List Chg :=
  match v with
  | some v => if normOptNat old != normOptNat v then
      [("assignee_id", normOptNat old, normOptNat v)] else []
  | none => []

def diff_reviewer (old : Option String) (v : Option (Option String)) : List Chg :=
  match v with
  | some v => if normOptStr old != normOptStr v then
      [("reviewer", normOptStr old, normOptStr v)] else []
  | none => []

def diff_status (old : Option String) (v : Option String) : List Chg :=
  match v with
  | some v => if normOptStr old != v then [("status", normOptStr old, v)] else []
  | none => []

def diff_priority (old : Option String) (v : Option String) : List Chg :=
  match v with
  | some v => if normOptStr old != v then [("priority", normOptStr old, v)] else []
  | none => []

def diff_issue_type (old : Option String) (v : Option String) : List Chg :=
  match v with
  | some v => if normOptStr old != v then [("issue_type", normOptStr old, v)] else []
  | none => []

def diff_start_date (old : Option String) (v : Option (Option String)) : List Chg :=
  match v with
  | some v => if normOptStr old != normOptStr v then
      [("start_date", normOptStr old, normOptStr v)] else []
  | none => []

def diff_end_date (old : Option String) (v : Option (Option String)) : List Chg :=
  match v with
  | some v => if normOptStr old != normOptStr v then
      [("end_date", normOptStr old, normOptStr v)] else []
  | none => []

/-- the claim's diff rule for the whole field loop, each field compared
independently against the stored issue, in loop order. -/
def specFieldDiff (ud : UpdateData) (story : Issue) : List Chg :=
  diff_title story.title ud.title ++
  diff_description story.description ud.description ++
  diff_sprint_number story.sprint_number ud.sprint_number ++
  diff_assignee story.assignee ud.assignee ++
  diff_assignee_id story.assignee_id ud.assignee_id ++
  diff_reviewer story.reviewer ud.reviewer ++
  diff_status story.status ud.status ++
  diff_priority story.priority ud.priority ++
  diff_issue_type story.issue_type ud.issue_type ++
  diff_start_date story.start_date ud.start_date ++
  diff_end_date story.end_date ud.end_date

/-- issue part of `upd_title`. -/
def upd_title_story (ud : UpdateData) (s : Issue) : Issue :=
  match ud.title with
  | some v => if s.title != v then { s with title := v } else s
  | none => s

/-- issue part of `upd_description`. -/
def upd_description_story (ud : UpdateData) (s : Issue) : Issue :=
  match ud.description with
  | some v => if s.description != v then { s with description := v } else s
  | none => s

/-- issue part of `upd_sprint_number`. -/
def upd_sprint_number_story (ud : UpdateData) (s : Issue) : Issue :=
  match ud.sprint_number with
  | some v => if normOptStr s.sprint_number != normOptStr v then { s with sprint_number := v } else s
  | none => s

/-- issue part of `upd_assignee`. -/
def upd_assignee_story (ud : UpdateData) (s : Issue) : Issue :=
  match ud.assignee with
  | some v => if s.assignee != v then { s with assignee := v } else s
  | none => s

/-- issue part of `upd_assignee_id`. -/
def upd_assignee_id_story (db : DB) (ud : UpdateData) (s : Issue) : Issue :=
  match ud.assignee_id with
  | some v => if normOptNat s.assignee_id != normOptNat v then { s with assignee_id := v, assignee := match v.bind (findUser db) with
                                       | some u => u.username
                                       | none => "Unknown" } else s
  | none => s

/-- issue part of `upd_reviewer`. -/
def upd_reviewer_story (ud : UpdateData) (s : Issue) : Issue :=
  match ud.reviewer with
  | some v => if normOptStr s.reviewer != normOptStr v then { s with reviewer := v } else s
  | none => s

/-- issue part of `upd_status`. -/
def upd_status_story (ud : UpdateData) (s : Issue) : Issue :=
  match ud.status with
  | some v => if normOptStr s.status != v then { s with status := some v } else s
  | none => s

/-- issue part of `upd_priority`. -/
def upd_priority_story (ud : UpdateData) (s : Issue) : Issue :=
  match ud.priority with
  | some v => if normOptStr s.priority != v then { s with priority := some v } else s
  | none => s

/-- issue part of `upd_issue_type`. -/
def upd_issue_type_story (ud : UpdateData) (s : Issue) : Issue :=
  match ud.issue_type with
  | some v => if normOptStr s.issue_type != v then { s with issue_type := some v } else s
  | none => s

/-- issue part of `upd_start_date`. -/
def upd_start_date_story (ud : UpdateData) (s : Issue) : Issue :=
  match ud.start_date with
  | some v => if normOptStr s.start_date != normOptStr v then { s with start_date := v } else s
  | none => s

/-- issue part of `upd_end_date`. -/
def upd_end_date_story (ud : UpdateData) (s : Issue) : Issue :=
  match ud.end_date with
  | some v => if normOptStr s.end_date != normOptStr v then { s with end_date := v } else s
  | none => s

theorem upd_title_eq (ud : UpdateData) (s : Issue) (cs : List Chg) :
    upd_title ud (s, cs) =
      (upd_title_story ud s, cs ++ diff_title s.title ud.title) := by
  unfold upd_title upd_title_story diff_title
  rcases hx : ud.title with _ | v
  · simp
  · by_cases h : s.title != v <;> simp [h]

theorem upd_description_eq (ud : UpdateData) (s : Issue) (cs : List Chg) :
    upd_description ud (s, cs) =
      (upd_description_story ud s, cs ++ diff_description s.description ud.description) := by
  unfold upd_description upd_description_story diff_description
  rcases hx : ud.description with _ | v
  · simp
  · by_cases h : s.description != v <;> simp [h]

theorem upd_sprint_number_eq (ud : UpdateData) (s : Issue) (cs : List Chg) :
    upd_sprint_number ud (s, cs) =
      (upd_sprint_number_story ud s, cs ++ diff_sprint_number s.sprint_number ud.sprint_number) := by
  unfold upd_sprint_number upd_sprint_number_story diff_sprint_number
  rcases hx : ud.sprint_number with _ | v
  · simp
  · by_cases h : normOptStr s.sprint_number != normOptStr v <;> simp [h]

theorem upd_assignee_eq (ud : UpdateData) (s : Issue) (cs : List Chg) :
    upd_assignee ud (s, cs) =
      (upd_assignee_story ud s, cs ++ diff_assignee s.assignee ud.assignee) := by
  unfold upd_assignee upd_assignee_story diff_assignee
  rcases hx : ud.assignee with _ | v
  · simp
  · by_cases h : s.assignee != v <;> simp [h]

theorem upd_assignee_id_eq (db : DB) (ud : UpdateData) (s : Issue) (cs : List Chg) :
    upd_assignee_id db ud (s, cs) =
      (upd_assignee_id_story db ud s, cs ++ diff_assignee_id s.assignee_id ud.assignee_id) := by
  unfold upd_assignee_id upd_assignee_id_story diff_assignee_id
  rcases hx : ud.assignee_id with _ | v
  · simp
  · by_cases h : normOptNat s.assignee_id != normOptNat v <;> simp [h]

theorem upd_reviewer_eq (ud : UpdateData) (s : Issue) (cs : List Chg) :
    upd_reviewer ud (s, cs) =
      (upd_reviewer_story ud s, cs ++ diff_reviewer s.reviewer ud.reviewer) := by
  unfold upd_reviewer upd_reviewer_story diff_reviewer
  rcases hx : ud.reviewer with _ | v
  · simp
  · by_cases h : normOptStr s.reviewer != normOptStr v <;> simp [h]

theorem upd_status_eq (ud : UpdateData) (s : Issue) (cs : List Chg) :
    upd_status ud (s, cs) =
      (upd_status_story ud s, cs ++ diff_status s.status ud.status) := by
  unfold upd_status upd_status_story diff_status
  rcases hx : ud.status with _ | v
  · simp
  · by_cases h : normOptStr s.status != v <;> simp [h]

theorem upd_priority_eq (ud : UpdateData) (s : Issue) (cs : List Chg) :
    upd_priority ud (s, cs) =
      (upd_priority_story ud s, cs ++ diff_priority s.priority ud.priority) := by
  unfold upd_priority upd_priority_story diff_priority
  rcases hx : ud.priority with _ | v
  · simp
  · by_cases h : normOptStr s.priority != v <;> simp [h]

theorem upd_issue_type_eq (ud : UpdateData) (s : Issue) (cs : List Chg) :
    upd_issue_type ud (s, cs) =
      (upd_issue_type_story ud s, cs ++ diff_issue_type s.issue_type ud.issue_type) := by
  unfold upd_issue_type upd_issue_type_story diff_issue_type
  rcases hx : ud.issue_type with _ | v
  · simp
  · by_cases h : normOptStr s.issue_type != v <;> simp [h]

theorem upd_start_date_eq (ud : UpdateData) (s : Issue) (cs : List Chg) :
    upd_start_date ud (s, cs) =
      (upd_start_date_story ud s, cs ++ diff_start_date s.start_date ud.start_date) := by
  unfold upd_start_date upd_start_date_story diff_start_date
  rcases hx : ud.start_date with _ | v
  · simp
  · by_cases h : normOptStr s.start_date != normOptStr v <;> simp [h]

theorem upd_end_date_eq (ud : UpdateData) (s : Issue) (cs : List Chg) :
    upd_end_date ud (s, cs) =
      (upd_end_date_story ud s, cs ++ diff_end_date s.end_date ud.end_date) := by
  unfold upd_end_date upd_end_date_story diff_end_date
  rcases hx : ud.end_date with _ | v
  · simp
  · by_cases h : normOptStr s.end_date != normOptStr v <;> simp [h]

theorem upd_title_story_description (ud : UpdateData) (s : Issue) :
    (upd_title_story ud s).description = s.description := by
  unfold upd_title_story
  rcases ud.title with _ | v
  · rfl
  · dsimp only
    split <;> rfl

theorem upd_title_story_sprint_number (ud : UpdateData) (s : Issue) :
    (upd_title_story ud s).sprint_number = s.sprint_number := by
  unfold upd_title_story
  rcases ud.title with _ | v
  · rfl
  · dsimp only
    split <;> rfl

theorem upd_title_story_assignee (ud : UpdateData) (s : Issue) :
    (upd_title_story ud s).assignee = s.assignee := by
  unfold upd_title_story
  rcases ud.title with _ | v
  · rfl
  · dsimp only
    split <;> rfl

theorem upd_title_story_assignee_id (ud : UpdateData) (s : Issue) :
    (upd_title_story ud s).assignee_id = s.assignee_id := by
  unfold upd_title_story
  rcases ud.title with _ | v
  · rfl
  · dsimp only
    split <;> rfl

theorem upd_title_story_reviewer (ud : UpdateData) (s : Issue) :
    (upd_title_story ud s).reviewer = s.reviewer := by
  unfold upd_title_story
  rcases ud.title with _ | v
  · rfl
  · dsimp only
    split <;> rfl

theorem upd_title_story_status (ud : UpdateData) (s : Issue) :
    (upd_title_story ud s).status = s.status := by
  unfold upd_title_story
  rcases ud.title with _ | v
  · rfl
  · dsimp only
    split <;> rfl

theorem upd_title_story_priority (ud : UpdateData) (s : Issue) :
    (upd_title_story ud s).priority = s.priority := by
  unfold upd_title_story
  rcases ud.title with _ | v
  · rfl
  · dsimp only
    split <;> rfl

theorem upd_title_story_issue_type (ud : UpdateData) (s : Issue) :
    (upd_title_story ud s).issue_type = s.issue_type := by
  unfold upd_title_story
  rcases ud.title with _ | v
  · rfl
  · dsimp only
    split <;> rfl

theorem upd_title_story_start_date (ud : UpdateData) (s : Issue) :
    (upd_title_story ud s).start_date = s.start_date := by
  unfold upd_title_story
  rcases ud.title with _ | v
  · rfl
  · dsimp only
    split <;> rfl

theorem upd_title_story_end_date (ud : UpdateData) (s : Issue) :
    (upd_title_story ud s).end_date = s.end_date := by
  unfold upd_title_story
  rcases ud.title with _ | v
  · rfl
  · dsimp only
    split <;> rfl

theorem upd_description_story_sprint_number (ud : UpdateData) (s : Issue) :
    (upd_description_story ud s).sprint_number = s.sprint_number := by
  unfold upd_description_story
  rcases ud.description with _ | v
  · rfl
  · dsimp only
    split <;> rfl

theorem upd_description_story_assignee (ud : UpdateData) (s : Issue) :
    (upd_description_story ud s).assignee = s.assignee := by
  unfold upd_description_story
  rcases ud.description with _ | v
  · rfl
  · dsimp only
    split <;> rfl

theorem upd_description_story_assignee_id (ud : UpdateData) (s : Issue) :
    (upd_description_story ud s).assignee_id = s.assignee_id := by
  unfold upd_description_story
  rcases ud.description with _ | v
  · rfl
  · dsimp only
    split <;> rfl

theorem upd_description_story_reviewer (ud : UpdateData) (s : Issue) :
    (upd_description_story ud s).reviewer = s.reviewer := by
  unfold upd_description_story
  rcases ud.description with _ | v
  · rfl
  · dsimp only
    split <;> rfl

theorem upd_description_story_status (ud : UpdateData) (s : Issue) :
    (upd_description_story ud s).status = s.status := by
  unfold upd_description_story
  rcases ud.description with _ | v
  · rfl
  · dsimp only
    split <;> rfl

theorem upd_description_story_priority (ud : UpdateData) (s : Issue) :
    (upd_description_story ud s).priority = s.priority := by
  unfold upd_description_story
  rcases ud.description with _ | v
  · rfl
  · dsimp only
    split <;> rfl

theorem upd_description_story_issue_type (ud : UpdateData) (s : Issue) :
    (upd_description_story ud s).issue_type = s.issue_type := by
  unfold upd_description_story
  rcases ud.description with _ | v
  · rfl
  · dsimp only
    split <;> rfl

theorem upd_description_story_start_date (ud : UpdateData) (s : Issue) :
    (upd_description_story ud s).start_date = s.start_date := by
  unfold upd_description_story
  rcases ud.description with _ | v
  · rfl
  · dsimp only
    split <;> rfl

theorem upd_description_story_end_date (ud : UpdateData) (s : Issue) :
    (upd_description_story ud s).end_date = s.end_date := by
  unfold upd_description_story
  rcases ud.description with _ | v
  · rfl
  · dsimp only
    split <;> rfl

theorem upd_sprint_number_story_assignee (ud : UpdateData) (s : Issue) :
    (upd_sprint_number_story ud s).assignee = s.assignee := by
  unfold upd_sprint_number_story
  rcases ud.sprint_number with _ | v
  · rfl
  · dsimp only
    split <;> rfl

theorem upd_sprint_number_story_assignee_id (ud : UpdateData) (s : Issue) :
    (upd_sprint_number_story ud s).assignee_id = s.assignee_id := by
  unfold upd_sprint_number_story
  rcases ud.sprint_number with _ | v
  · rfl
  · dsimp only
    split <;> rfl

theorem upd_sprint_number_story_reviewer (ud : UpdateData) (s : Issue) :
    (upd_sprint_number_story ud s).reviewer = s.reviewer := by
  unfold upd_sprint_number_story
  rcases ud.sprint_number with _ | v
  · rfl
  · dsimp only
    split <;> rfl

theorem upd_sprint_number_story_status (ud : UpdateData) (s : Issue) :
    (upd_sprint_number_story ud s).status = s.status := by
  unfold upd_sprint_number_story
  rcases ud.sprint_number with _ | v
  · rfl
  · dsimp only
    split <;> rfl

theorem upd_sprint_number_story_priority (ud : UpdateData) (s : Issue) :
    (upd_sprint_number_story ud s).priority = s.priority := by
  unfold upd_sprint_number_story
  rcases ud.sprint_number with _ | v
  · rfl
  · dsimp only
    split <;> rfl

theorem upd_sprint_number_story_issue_type (ud : UpdateData) (s : Issue) :
    (upd_sprint_number_story ud s).issue_type = s.issue_type := by
  unfold upd_sprint_number_story
  rcases ud.sprint_number with _ | v
  · rfl
  · dsimp only
    split <;> rfl

theorem upd_sprint_number_story_start_date (ud : UpdateData) (s : Issue) :
    (upd_sprint_number_story ud s).start_date = s.start_date := by
  unfold upd_sprint_number_story
  rcases ud.sprint_number with _ | v
  · rfl
  · dsimp only
    split <;> rfl

theorem upd_sprint_number_story_end_date (ud : UpdateData) (s : Issue) :
    (upd_sprint_number_story ud s).end_date = s.end_date := by
  unfold upd_sprint_number_story
  rcases ud.sprint_number with _ | v
  · rfl
  · dsimp only
    split <;> rfl

theorem upd_assignee_story_assignee_id (ud : UpdateData) (s : Issue) :
    (upd_assignee_story ud s).assignee_id = s.assignee_id := by
  unfold upd_assignee_story
  rcases ud.assignee with _ | v
  · rfl
  · dsimp only
    split <;> rfl

theorem upd_assignee_story_reviewer (ud : UpdateData) (s : Issue) :
    (upd_assignee_story ud s).reviewer = s.reviewer := by
  unfold upd_assignee_story
  rcases ud.assignee with _ | v
  · rfl
  · dsimp only
    split <;> rfl

theorem upd_assignee_story_status (ud : UpdateData) (s : Issue) :
    (upd_assignee_story ud s).status = s.status := by
  unfold upd_assignee_story
  rcases ud.assignee with _ | v
  · rfl
  · dsimp only
    split <;> rfl

theorem upd_assignee_story_priority (ud : UpdateData) (s : Issue) :
    (upd_assignee_story ud s).priority = s.priority := by
  unfold upd_assignee_story
  rcases ud.assignee with _ | v
  · rfl
  · dsimp only
    split <;> rfl

theorem upd_assignee_story_issue_type (ud : UpdateData) (s : Issue) :
    (upd_assignee_story ud s).issue_type = s.issue_type := by
  unfold upd_assignee_story
  rcases ud.assignee with _ | v
  · rfl
  · dsimp only
    split <;> rfl

theorem upd_assignee_story_start_date (ud : UpdateData) (s : Issue) :
    (upd_assignee_story ud s).start_date = s.start_date := by
  unfold upd_assignee_story
  rcases ud.assignee with _ | v
  · rfl
  · dsimp only
    split <;> rfl

theorem upd_assignee_story_end_date (ud : UpdateData) (s : Issue) :
    (upd_assignee_story ud s).end_date = s.end_date := by
  unfold upd_assignee_story
  rcases ud.assignee with _ | v
  · rfl
  · dsimp only
    split <;> rfl

theorem upd_assignee_id_story_reviewer (db : DB) (ud : UpdateData) (s : Issue) :
    (upd_assignee_id_story db ud s).reviewer = s.reviewer := by
  unfold upd_assignee_id_story
  rcases ud.assignee_id with _ | v
  · rfl
  · dsimp only
    split <;> rfl

theorem upd_assignee_id_story_status (db : DB) (ud : UpdateData) (s : Issue) :
    (upd_assignee_id_story db ud s).status = s.status := by
  unfold upd_assignee_id_story
  rcases ud.assignee_id with _ | v
  · rfl
  · dsimp only
    split <;> rfl

theorem upd_assignee_id_story_priority (db : DB) (ud : UpdateData) (s : Issue) :
    (upd_assignee_id_story db ud s).priority = s.priority := by
  unfold upd_assignee_id_story
  rcases ud.assignee_id with _ | v
  · rfl
  · dsimp only
    split <;> rfl

theorem upd_assignee_id_story_issue_type (db : DB) (ud : UpdateData) (s : Issue) :
    (upd_assignee_id_story db ud s).issue_type = s.issue_type := by
  unfold upd_assignee_id_story
  rcases ud.assignee_id with _ | v
  · rfl
  · dsimp only
    split <;> rfl

theorem upd_assignee_id_story_start_date (db : DB) (ud : UpdateData) (s : Issue) :
    (upd_assignee_id_story db ud s).start_date = s.start_date := by
  unfold upd_assignee_id_story
  rcases ud.assignee_id with _ | v
  · rfl
  · dsimp only
    split <;> rfl

theorem upd_assignee_id_story_end_date (db : DB) (ud : UpdateData) (s : Issue) :
    (upd_assignee_id_story db ud s).end_date = s.end_date := by
  unfold upd_assignee_id_story
  rcases ud.assignee_id with _ | v
  · rfl
  · dsimp only
    split <;> rfl

theorem upd_reviewer_story_status (ud : UpdateData) (s : Issue) :
    (upd_reviewer_story ud s).status = s.status := by
  unfold upd_reviewer_story
  rcases ud.reviewer with _ | v
  · rfl
  · dsimp only
    split <;> rfl

theorem upd_reviewer_story_priority (ud : UpdateData) (s : Issue) :
    (upd_reviewer_story ud s).priority = s.priority := by
  unfold upd_reviewer_story
  rcases ud.reviewer with _ | v
  · rfl
  · dsimp only
    split <;> rfl

theorem upd_reviewer_story_issue_type (ud : UpdateData) (s : Issue) :
    (upd_reviewer_story ud s).issue_type = s.issue_type := by
  unfold upd_reviewer_story
  rcases ud.reviewer with _ | v
  · rfl
  · dsimp only
    split <;> rfl

theorem upd_reviewer_story_start_date (ud : UpdateData) (s : Issue) :
    (upd_reviewer_story ud s).start_date = s.start_date := by
  unfold upd_reviewer_story
  rcases ud.reviewer with _ | v
  · rfl
  · dsimp only
    split <;> rfl

theorem upd_reviewer_story_end_date (ud : UpdateData) (s : Issue) :
    (upd_reviewer_story ud s).end_date = s.end_date := by
  unfold upd_reviewer_story
  rcases ud.reviewer with _ | v
  · rfl
  · dsimp only
    split <;> rfl

theorem upd_status_story_priority (ud : UpdateData) (s : Issue) :
    (upd_status_story ud s).priority = s.priority := by
  unfold upd_status_story
  rcases ud.status with _ | v
  · rfl
  · dsimp only
    split <;> rfl

theorem upd_status_story_issue_type (ud : UpdateData) (s : Issue) :
    (upd_status_story ud s).issue_type = s.issue_type := by
  unfold upd_status_story
  rcases ud.status with _ | v
  · rfl
  · dsimp only
    split <;> rfl

theorem upd_status_story_start_date (ud : UpdateData) (s : Issue) :
    (upd_status_story ud s).start_date = s.start_date := by
  unfold upd_status_story
  rcases ud.status with _ | v
  · rfl
  · dsimp only
    split <;> rfl

theorem upd_status_story_end_date (ud : UpdateData) (s : Issue) :
    (upd_status_story ud s).end_date = s.end_date := by
  unfold upd_status_story
  rcases ud.status with _ | v
  · rfl
  · dsimp only
    split <;> rfl

theorem upd_priority_story_issue_type (ud : UpdateData) (s : Issue) :
    (upd_priority_story ud s).issue_type = s.issue_type := by
  unfold upd_priority_story
  rcases ud.priority with _ | v
  · rfl
  · dsimp only
    split <;> rfl

theorem upd_priority_story_start_date (ud : UpdateData) (s : Issue) :
    (upd_priority_story ud s).start_date = s.start_date := by
  unfold upd_priority_story
  rcases ud.priority with _ | v
  · rfl
  · dsimp only
    split <;> rfl

theorem upd_priority_story_end_date (ud : UpdateData) (s : Issue) :
    (upd_priority_story ud s).end_date = s.end_date := by
  unfold upd_priority_story
  rcases ud.priority with _ | v
  · rfl
  · dsimp only
    split <;> rfl

theorem upd_issue_type_story_start_date (ud : UpdateData) (s : Issue) :
    (upd_issue_type_story ud s).start_date = s.start_date := by
  unfold upd_issue_type_story
  rcases ud.issue_type with _ | v
  · rfl
  · dsimp only
    split <;> rfl

theorem upd_issue_type_story_end_date (ud : UpdateData) (s : Issue) :
    (upd_issue_type_story ud s).end_date = s.end_date := by
  unfold upd_issue_type_story
  rcases ud.issue_type with _ | v
  · rfl
  · dsimp only
    split <;> rfl

theorem upd_start_date_story_end_date (ud : UpdateData) (s : Issue) :
    (upd_start_date_story ud s).end_date = s.end_date := by
  unfold upd_start_date_story
  rcases ud.start_date with _ | v
  · rfl
  · dsimp only
    split <;> rfl

/-- the sequential field loop records exactly the independent spec diffs:
each field is diffed against the stored issue, and a field is recorded iff
its normalized old and new renderings differ. -/
theorem applyUpdateFields_changes (db : DB) (ud : UpdateData) (story : Issue) :
    (applyUpdateFields db ud story).2 = specFieldDiff ud story := by
  unfold applyUpdateFields specFieldDiff
  rw [upd_title_eq, upd_description_eq, upd_sprint_number_eq, upd_assignee_eq,
      upd_assignee_id_eq, upd_reviewer_eq, upd_status_eq, upd_priority_eq,
      upd_issue_type_eq, upd_start_date_eq, upd_end_date_eq]
  simp only [upd_title_story_description,
    upd_title_story_sprint_number,
    upd_title_story_assignee,
    upd_title_story_assignee_id,
    upd_title_story_reviewer,
    upd_title_story_status,
    upd_title_story_priority,
    upd_title_story_issue_type,
    upd_title_story_start_date,
    upd_title_story_end_date,
    upd_description_story_sprint_number,
    upd_description_story_assignee,
    upd_description_story_assignee_id,
    upd_description_story_reviewer,
    upd_description_story_status,
    upd_description_story_priority,
    upd_description_story_issue_type,
    upd_description_story_start_date,
    upd_description_story_end_date,
    upd_sprint_number_story_assignee,
    upd_sprint_number_story_assignee_id,
    upd_sprint_number_story_reviewer,
    upd_sprint_number_story_status,
    upd_sprint_number_story_priority,
    upd_sprint_number_story_issue_type,
    upd_sprint_number_story_start_date,
    upd_sprint_number_story_end_date,
    upd_assignee_story_assignee_id,
    upd_assignee_story_reviewer,
    upd_assignee_story_status,
    upd_assignee_story_priority,
    upd_assignee_story_issue_type,
    upd_assignee_story_start_date,
    upd_assignee_story_end_date,
    upd_assignee_id_story_reviewer,
    upd_assignee_id_story_status,
    upd_assignee_id_story_priority,
    upd_assignee_id_story_issue_type,
    upd_assignee_id_story_start_date,
    upd_assignee_id_story_end_date,
    upd_reviewer_story_status,
    upd_reviewer_story_priority,
    upd_reviewer_story_issue_type,
    upd_reviewer_story_start_date,
    upd_reviewer_story_end_date,
    upd_status_story_priority,
    upd_status_story_issue_type,
    upd_status_story_start_date,
    upd_status_story_end_date,
    upd_priority_story_issue_type,
    upd_priority_story_start_date,
    upd_priority_story_end_date,
    upd_issue_type_story_start_date,
    upd_issue_type_story_end_date,
    upd_start_date_story_end_date,
    List.append_assoc, List.nil_append]

/-- C8 counterexample: a patch title differing from the stored title only by
a leading space — equal after trimming — is nevertheless recorded as a diff,
and the update commits one UPDATED audit row with `change_count = 1`,
refuting the claim that such a patch produces no diff line and no entry. -/
theorem C8_whitespace_patch_is_recorded :
    strTrim " X" = strTrim iss100.title ∧ " X" ≠ iss100.title ∧
    (update_story exDB uAdmin 100 { title := some " X" } 9).map
        (fun r => r.toOption.map (fun p => p.1.activities.map (fun a => (a.action, a.change_count)))) =
      some (some [("UPDATED", 1)]) := by
  refine ⟨by decide, by decide, by decide⟩

/-- C8 (amended): the field loop records a field iff its stored and patch
values differ after rendering both to strings with `None` as the empty
string and no whitespace trimming, dates compared on their `YYYY-MM-DD`
renderings; equivalently, the sequential loop computes exactly the
independent per-field normalized diffs of `specFieldDiff`. -/
theorem C8_diff_normalization_amended :
    ∀ (db : DB) (ud : UpdateData) (story : Issue),
      (applyUpdateFields db ud story).2 = specFieldDiff ud story :=
  applyUpdateFields_changes

/-! ### C7 — empty-diff audit invariant -/

/-- no persisted UPDATED row has an empty diff set. -/
def auditInvariant (db : DB) : Prop :=
  ∀ act ∈ db.activities, act.action = "UPDATED" → 0 < act.change_count

theorem log_updated_nil (db : DB) (sid : Nat) (uid : Option Nat) :
    _log_activity_aggregated db sid uid "UPDATED" [] = db := by
  unfold _log_activity_aggregated
  rfl

theorem auditInvariant_log (db : DB) (sid : Nat) (uid : Option Nat) (action : String)
    (chgs : List Chg) (h : auditInvariant db) :
    auditInvariant (_log_activity_aggregated db sid uid action chgs) := by
  unfold _log_activity_aggregated
  by_cases hg : (chgs.isEmpty && (action == "UPDATED")) = true
  · rw [if_pos hg]; exact h
  · rw [if_neg hg]
    intro act hmem hupd
    simp only [List.mem_append, List.mem_singleton] at hmem
    rcases hmem with hm | rfl
    · exact h act hm hupd
    · simp only at hupd ⊢
      cases chgs with
      | nil =>
        exfalso
        apply hg
        simp [hupd]
      | cons c l => simp
  
theorem auditInvariant_congr {db1 db2 : DB} (h : db1.activities = db2.activities)
    (h2 : auditInvariant db2) : auditInvariant db1 := by
  unfold auditInvariant
  rw [h]
  exact h2

theorem syncTeamMembers_ok_inv {db : DB} {a t : Option Nat} {db1 : DB}
    (h : syncTeamMembers db a t = Except.ok db1) :
    db1.activities = db.activities ∧ db1.issues = db.issues ∧
    db1.next_issue_id = db.next_issue_id := by
  unfold syncTeamMembers at h
  split at h
  · split at h
    · cases h
    · split at h
      · simp only [Except.ok.injEq] at h
        subst h
        exact ⟨rfl, rfl, rfl⟩
      · split at h
        · cases h
        · simp only [Except.ok.injEq] at h
          subst h
          exact ⟨rfl, rfl, rfl⟩
  · simp only [Except.ok.injEq] at h
    subst h
    exact ⟨rfl, rfl, rfl⟩

/-- inversion of a successful update run. -/
theorem update_story_ok_inv {db : DB} {user : UserRec} {id : Nat} {form : UpdateForm}
    {fuel : Nat} {db' : DB} {s' : Issue}
    (h : update_story db user id form fuel = some (Except.ok (db', s'))) :
    ∃ story project ud story1 pcs,
      findIssue db id = some story ∧
      findProject db story.project_id = some project ∧
      project.is_active = true ∧
      can_update_issue user story db = true ∧
      mkUpdateData form user = Except.ok ud ∧
      parentStage db ud story fuel = some (Except.ok (story1, pcs)) ∧
      statusGate db ud story1 = Except.ok () ∧
      (db', s') = updateCommit db user ud story1 pcs := by
  unfold update_story at h
  split at h
  · cases h
  · rename_i story hfind
    split at h
    · cases h
    · rename_i project hproj
      split at h
      · cases h
      · rename_i v hcpa
        have hact : project.is_active = true := check_project_active_ok hcpa
        split at h
        · cases h
        · rename_i hperm
          split at h
          · cases h
          · rename_i ud hud
            split at h
            · cases h
            · cases h
            · rename_i pr story1 pcs hps
              split at h
              · cases h
              · rename_i v2 hgate
                simp only [Option.some.injEq, Except.ok.injEq] at h
                refine ⟨story, project, ud, story1, pcs, hfind, hproj, hact, ?_, hud, ?_, ?_, h.symm⟩
                · rcases hb : can_update_issue user story db
                  · rw [hb] at hperm; exact absurd rfl hperm
                  · rfl
                · exact hps
                · exact hgate

/-- inversion of the parent-change stage. -/
theorem parentStage_ok_inv {db : DB} {ud : UpdateData} {story : Issue} {fuel : Nat}
    {story1 : Issue} {pcs : List Chg}
    (h : parentStage db ud story fuel = some (Except.ok (story1, pcs))) :
    (story1 = story ∧ pcs = [] ∧
      (ud.parent_issue_id = none ∨ ud.parent_issue_id = some story.parent_issue_id)) ∨
    (∃ np, ud.parent_issue_id = some np ∧ np ≠ story.parent_issue_id ∧
      _validate_hierarchy db np story.issue_type (some story.id) fuel = some (Except.ok ()) ∧
      story1 = { story with parent_issue_id := np } ∧
      pcs = [("parent_issue_id", strOfOptNat story.parent_issue_id, strOfOptNat np)]) := by
  unfold parentStage at h
  split at h
  · simp only [Option.some.injEq, Except.ok.injEq, Prod.mk.injEq] at h
    exact Or.inl ⟨h.1.symm, h.2.symm, Or.inl (by assumption)⟩
  · rename_i np hnp
    split at h
    · simp only [Option.some.injEq, Except.ok.injEq, Prod.mk.injEq] at h
      rename_i hbeq
      refine Or.inl ⟨h.1.symm, h.2.symm, Or.inr ?_⟩
      rw [hnp]
      congr 1
      exact eq_of_beq hbeq
    · rename_i hbne
      split at h
      · cases h
      · cases h
      · rename_i hval
        simp only [Option.some.injEq, Except.ok.injEq, Prod.mk.injEq] at h
        refine Or.inr ⟨np, hnp, ?_, ?_, h.1.symm, h.2.symm⟩
        · intro heq
          rw [heq] at hbne
          simp at hbne
        · exact hval

/-- inversion of a successful create run. -/
theorem create_user_story_ok_inv {db : DB} {user : UserRec} {form : CreateForm}
    {db' : DB} {s' : Issue}
    (h : create_user_story db user form = Except.ok (db', s')) :
    ∃ aid assignee_name project db1 story_code,
      resolveAssignee db user form = Except.ok (aid, assignee_name) ∧
      findProject db form.project_id = some project ∧
      project.is_active = true ∧
      can_create_issue user form.project_id (parse_optional_int form.team_id) db = true ∧
      _validate_hierarchy db (parse_optional_int form.parent_issue_id) form.issue_type none 0 =
        some (Except.ok ()) ∧
      _generate_story_code db form.project_id = Except.ok story_code ∧
      syncTeamMembers db aid (parse_optional_int form.team_id) = Except.ok db1 ∧
      (db', s') = createCommit db1 user form project aid assignee_name story_code := by
  unfold create_user_story at h
  simp only [bind, Except.bind, pure, Except.pure] at h
  split at h
  · cases h
  · rename_i pr hres
    split at h
    · cases h
    · rename_i project hproj
      split at h
      · cases h
      · rename_i v hcpa
        have hact : project.is_active = true := check_project_active_ok hcpa
        split at h
        · cases h
        · rename_i hcc
          have hcc2 : can_create_issue user form.project_id (parse_optional_int form.team_id) db = true := by
            rcases hb : can_create_issue user form.project_id (parse_optional_int form.team_id) db
            · rw [hb] at hcc; exact absurd rfl hcc
            · rfl
          split at h
          · rename_i r hval
            split at h
            · cases h
            · rename_i hvalok
              split at h
              · cases h
              · rename_i code hcode
                split at h
                · cases h
                · rename_i db1 hsync
                  simp only [Except.ok.injEq] at h
                  have hvr : _validate_hierarchy db (parse_optional_int form.parent_issue_id)
                      form.issue_type none 0 = some (Except.ok ()) := by
                    rw [hval]
                  exact ⟨pr.1, pr.2, project, db1, code, hres, hproj, hact, hcc2, hvr, hcode, hsync, h.symm⟩
          · cases h

/-- a patch whose status diff is empty can never trip the Done-gate. -/
theorem statusGate_ok_of_empty_diff {db : DB} {ud : UpdateData} {story : Issue}
    (hdiff : diff_status story.status ud.status = []) :
    statusGate db ud story = Except.ok () := by
  unfold statusGate
  cases hst : ud.status with
  | none => rfl
  | some v =>
    rw [hst] at hdiff
    unfold diff_status at hdiff
    by_cases hc : (normOptStr story.status != v) = true
    · simp [hc] at hdiff
    · have hcf : (normOptStr story.status != v) = false := Bool.of_not_eq_true hc
      have hv : normOptStr story.status = v := by simpa [bne] using hcf
      cases hss : story.status with
      | some s0 =>
        have hv2 : s0 = v := by simpa [normOptStr, hss] using hv
        subst hv2
        simp [hss]
      | none =>
        have hv2 : v = "" := by rw [hss] at hv; exact hv.symm
        subst hv2
        simp [hss, show (strLower "" == "done") = false from by decide]

theorem updateCommit_activities_inv (db : DB) (user : UserRec) (ud : UpdateData)
    (story1 : Issue) (pcs : List Chg) (h : auditInvariant db) :
    auditInvariant (updateCommit db user ud story1 pcs).1 := by
  unfold updateCommit
  dsimp only
  exact auditInvariant_congr rfl (auditInvariant_log _ _ _ _ _ h)

theorem createCommit_activities_inv (db1 : DB) (user : UserRec) (form : CreateForm)
    (project : ProjectRec) (aid : Option Nat) (nm code : String) (h : auditInvariant db1) :
    auditInvariant (createCommit db1 user form project aid nm code).1 := by
  unfold createCommit
  dsimp only
  exact auditInvariant_congr rfl (auditInvariant_log _ _ _ _ _ (auditInvariant_congr rfl h))

/-- C7: every committed update either writes no audit row or writes exactly
UPDATED rows with a positive change count (the audit invariant is preserved
by update and by create), and an update whose patch is a normalized no-op —
empty spec diff and an unchanged parent — commits zero new audit rows. -/
theorem C7_empty_diff_audit :
    (∀ (db : DB) (user : UserRec) (id : Nat) (form : UpdateForm) (fuel : Nat)
        (db' : DB) (s' : Issue),
        update_story db user id form fuel = some (Except.ok (db', s')) →
        auditInvariant db → auditInvariant db') ∧
    (∀ (db : DB) (user : UserRec) (form : CreateForm) (db' : DB) (s' : Issue),
        create_user_story db user form = Except.ok (db', s') →
        auditInvariant db → auditInvariant db') ∧
    (∀ (db : DB) (user : UserRec) (id : Nat) (form : UpdateForm) (fuel : Nat)
        (story : Issue) (project : ProjectRec) (ud : UpdateData),
        findIssue db id = some story →
        findProject db story.project_id = some project →
        project.is_active = true →
        can_update_issue user story db = true →
        mkUpdateData form user = Except.ok ud →
        (ud.parent_issue_id = none ∨ ud.parent_issue_id = some story.parent_issue_id) →
        specFieldDiff ud story = [] →
        ∃ db' s', update_story db user id form fuel = some (Except.ok (db', s')) ∧
          db'.activities = db.activities) := by
  refine ⟨?_, ?_, ?_⟩
  · intro db user id form fuel db' s' h hinv
    obtain ⟨story, project, ud, story1, pcs, -, -, -, -, -, -, -, hcommit⟩ := update_story_ok_inv h
    have hdb : db' = (updateCommit db user ud story1 pcs).1 := by rw [← hcommit]
    rw [hdb]
    exact updateCommit_activities_inv db user ud story1 pcs hinv
  · intro db user form db' s' h hinv
    obtain ⟨aid, nm, project, db1, code, -, -, -, -, -, -, hsync, hcommit⟩ :=
      create_user_story_ok_inv h
    have hdb : db' = (createCommit db1 user form project aid nm code).1 := by rw [← hcommit]
    rw [hdb]
    exact createCommit_activities_inv db1 user form project aid nm code
      (auditInvariant_congr (syncTeamMembers_ok_inv hsync).1 hinv)
  · intro db user id form fuel story project ud hfind hproj hact hperm hud hpar hdiff
    have hcpa : check_project_active project.is_active = Except.ok () := by
      simp [check_project_active, hact]
    have hperm2 : (!can_update_issue user story db) = false := by simp [hperm]
    have hps : parentStage db ud story fuel = some (Except.ok (story, [])) := by
      unfold parentStage
      rcases hpar with hn | he
      · rw [hn]
      · simp [he]
    have hgate : statusGate db ud story = Except.ok () := by
      apply statusGate_ok_of_empty_diff
      have hd := hdiff
      unfold specFieldDiff at hd
      rcases List.append_eq_nil.mp hd with ⟨h1, h2⟩
      rcases List.append_eq_nil.mp h1 with ⟨h3, h4⟩
      rcases List.append_eq_nil.mp h3 with ⟨h5, h6⟩
      rcases List.append_eq_nil.mp h5 with ⟨h7, h8⟩
      rcases List.append_eq_nil.mp h7 with ⟨h9, h10⟩
      exact h10
    unfold update_story
    simp only [hfind, hproj, hcpa, hperm2, hud, hps, hgate, Bool.false_eq_true, if_false]
    refine ⟨_, _, rfl, ?_⟩
    rw [applyUpdateFields_changes, hdiff]
    simp only [List.nil_append]
    rw [log_updated_nil]

/-- witness for C7: re-submitting the stored title commits zero audit rows. -/
theorem C7_empty_diff_audit_witness :
    ∃ db' s', update_story exDB uAdmin 100 { title := some "X" } 9 = some (Except.ok (db', s')) ∧
      db'.activities = exDB.activities :=
  C7_empty_diff_audit.2.2 exDB uAdmin 100 { title := some "X" } 9 iss100 prj
    { title := some "X" } (by decide) (by decide) (by decide) (by decide) (by decide)
    (Or.inl (by decide)) (by decide)

/-! ### C3 / C10 — the parent graph

`parentOf db x` is the stored parent pointer of the issue found at id `x`;
`stepRel` is the child-to-parent edge relation it induces, `ChainHits` its
transitive closure, and `AcyclicDB` the forest invariant. -/

def parentOf (db : DB) (x : Nat) : Option Nat :=
  (findIssue db x).bind (fun a => a.parent_issue_id)

def stepRel (db : DB) (x y : Nat) : Prop := parentOf db x = some y

/-- `cur` appears in the ancestor chain rooted at `x`. -/
def ChainHits (db : DB) (x cur : Nat) : Prop := Relation.TransGen (stepRel db) x cur

def AcyclicDB (db : DB) : Prop := ∀ x, ¬ Relation.TransGen (stepRel db) x x

/-- the source's validation terminates on this input for some fuel. -/
def validateTerminates (db : DB) (parent_id : Option Nat) (t : Option String)
    (cur : Option Nat) : Prop :=
  ∃ fuel, _validate_hierarchy db parent_id t cur fuel ≠ none

/-- `rank` strictly decreases along every resolvable stored parent edge —
the usual witness that the stored parent graph is acyclic. -/
def parentRankOkB (db : DB) (rank : Nat → Nat) : Bool :=
  db.issues.all (fun a =>
    match a.parent_issue_id with
    | none => true
    | some p =>
      match findIssue db p with
      | none => true
      | some _ => decide (rank p < rank a.id))

theorem findIssue_id {db : DB} {x : Nat} {a : Issue} (h : findIssue db x = some a) :
    a.id = x := by
  have := List.find?_some h
  simpa using this

theorem findIssue_mem {db : DB} {x : Nat} {a : Issue} (h : findIssue db x = some a) :
    a ∈ db.issues :=
  List.mem_of_find?_eq_some h

theorem stepRel_intro {db : DB} {x y : Nat} {a : Issue}
    (hf : findIssue db x = some a) (hp : a.parent_issue_id = some y) : stepRel db x y := by
  unfold stepRel parentOf
  rw [hf]
  exact hp

theorem stepRel_elim {db : DB} {x y : Nat} (h : stepRel db x y) :
    ∃ a, findIssue db x = some a ∧ a.parent_issue_id = some y := by
  unfold stepRel parentOf at h
  cases hf : findIssue db x with
  | none => rw [hf] at h; cases h
  | some a => rw [hf] at h; exact ⟨a, rfl, h⟩

theorem stepRel_det {db : DB} {x y z : Nat} (h1 : stepRel db x y) (h2 : stepRel db x z) :
    y = z := by
  unfold stepRel at h1 h2
  rw [h1] at h2
  exact Option.some.inj h2

theorem parentRankOk_spec {db : DB} {rank : Nat → Nat} (h : parentRankOkB db rank = true) :
    ∀ a ∈ db.issues, ∀ p, a.parent_issue_id = some p →
      ∀ b, findIssue db p = some b → rank p < rank a.id := by
  intro a ha p hp b hb
  have ha2 := List.all_eq_true.mp h a ha
  rw [hp] at ha2
  simp only [hb] at ha2
  exact of_decide_eq_true ha2

theorem walkAux_isSome {db : DB} {rank : Nat → Nat} (hrank : parentRankOkB db rank = true)
    (cur : Nat) : ∀ fuel (a : Issue), a ∈ db.issues → rank a.id < fuel →
      (walkAux db cur fuel a).isSome := by
  intro fuel
  induction fuel with
  | zero => intro a _ h; omega
  | succ n ih =>
    intro a ha hlt
    simp only [walkAux]
    cases hp : a.parent_issue_id with
    | none => simp
    | some p =>
      by_cases hpc : (p == cur) = true
      · simp [hpc]
      · simp only [hpc, Bool.false_eq_true, if_false]
        cases hb : findIssue db p with
        | none => simp
        | some b =>
          apply ih
          · exact findIssue_mem hb
          · have h1 : rank p < rank a.id := parentRankOk_spec hrank a ha p hp b hb
            have h2 : b.id = p := findIssue_id hb
            rw [h2]
            omega

theorem walkAux_true_hits {db : DB} {cur : Nat} :
    ∀ fuel (a : Issue) (x : Nat), findIssue db x = some a →
      walkAux db cur fuel a = some true → ChainHits db x cur := by
  intro fuel
  induction fuel with
  | zero => intro a x _ h; cases h
  | succ n ih =>
    intro a x hf h
    simp only [walkAux] at h
    cases hp : a.parent_issue_id with
    | none => rw [hp] at h; cases h
    | some p =>
      simp only [hp] at h
      by_cases hpc : (p == cur) = true
      · have : p = cur := by simpa using hpc
        subst this
        exact Relation.TransGen.single (stepRel_intro hf hp)
      · rw [if_neg hpc] at h
        cases hb : findIssue db p with
        | none => rw [hb] at h; cases h
        | some b =>
          rw [hb] at h
          exact Relation.TransGen.head (stepRel_intro hf hp) (ih b p hb h)

theorem walkAux_false_no_hits {db : DB} {cur : Nat} :
    ∀ fuel (a : Issue) (x : Nat), findIssue db x = some a →
      walkAux db cur fuel a = some false → ¬ ChainHits db x cur := by
  intro fuel
  induction fuel with
  | zero => intro a x _ h; cases h
  | succ n ih =>
    intro a x hf h hch
    simp only [walkAux] at h
    rcases Relation.TransGen.head'_iff.mp hch with ⟨b, hstep, hrest⟩
    rcases stepRel_elim hstep with ⟨a2, hf2, hp2⟩
    rw [hf] at hf2
    cases hf2
    simp only [hp2] at h
    by_cases hpc : (b == cur) = true
    · rw [if_pos hpc] at h; cases h
    · rw [if_neg hpc] at h
      have hbne : b ≠ cur := by simpa using hpc
      have hch2 : ChainHits db b cur := by
        rcases Relation.ReflTransGen.cases_head hrest with heq | ⟨c, hc, hrc⟩
        · exact absurd heq hbne
        · exact Relation.TransGen.head'_iff.mpr ⟨c, hc, hrc⟩
      cases hb : findIssue db b with
      | none =>
        rcases Relation.TransGen.head'_iff.mp hch2 with ⟨c, hstep2, -⟩
        rcases stepRel_elim hstep2 with ⟨a3, hf3, -⟩
        rw [hb] at hf3
        cases hf3
      | some b2 =>
        rw [hb] at h
        exact ih b2 b hb h hch2

theorem hierarchyTypeCheck_ne_circular (t pt : Option String) :
    hierarchyTypeCheck t pt ≠ Except.error Err.circularDependency := by
  unfold hierarchyTypeCheck
  repeat' split
  all_goals simp

theorem validate_none_parent_ne (db : DB) (t : Option String) (cur : Option Nat) (fuel : Nat) :
    _validate_hierarchy db none t cur fuel ≠ none := by
  by_cases h : t = some "Subtask" <;> simp [_validate_hierarchy, h]

def c400 : Issue := { iss100 with id := 400, parent_issue_id := some 401 }

def c401 : Issue := { iss100 with id := 401, parent_issue_id := some 400 }

/-- a store with a pre-existing corrupted parent cycle 400 ↔ 401 that does
not contain issue 100. -/
def cycDB : DB := { exDB with issues := [iss100, c400, c401] }

theorem walk_cyc_none : ∀ fuel, walkAux cycDB 100 fuel c400 = none ∧
    walkAux cycDB 100 fuel c401 = none := by
  intro fuel
  induction fuel with
  | zero => exact ⟨rfl, rfl⟩
  | succ n ih =>
    constructor
    · rw [show walkAux cycDB 100 (n + 1) c400 = walkAux cycDB 100 n c401 from rfl]
      exact ih.2
    · rw [show walkAux cycDB 100 (n + 1) c401 = walkAux cycDB 100 n c400 from rfl]
      exact ih.1

/-- C3 counterexample: the ancestor walk is a naive loop with no
visited-set.  On the concrete store whose issues 400 and 401 form a parent
cycle not containing the current issue 100, validating candidate parent 400
for issue 100 never terminates for any fuel, refuting the claim that the
walk terminates on every stored parent graph. -/
theorem C3_naive_walk_nontermination :
    c400.parent_issue_id = some 401 ∧ c401.parent_issue_id = some 400 ∧
    findIssue cycDB 100 = some iss100 ∧ iss100.parent_issue_id = none ∧
    ¬ validateTerminates cycDB (some 400) (some "Story") (some 100) := by
  refine ⟨by decide, by decide, by decide, by decide, ?_⟩
  rintro ⟨fuel, hne⟩
  apply hne
  have hw := (walk_cyc_none fuel).1
  show _validate_hierarchy cycDB (some 400) (some "Story") (some 100) fuel = none
  have h400 : findIssue cycDB 400 = some c400 := by decide
  simp only [_validate_hierarchy, h400]
  rw [if_neg (by decide), hw]

/-- C3 (amended): the walk is a naive pointer chase without a visited-set.
It terminates whenever the stored parent graph admits a strictly decreasing
parent rank (in particular on every acyclic store), and whenever validation
returns at all, it returns CircularDependency exactly when the current id
appears strictly in the candidate's ancestor chain — the candidate equal to
the current id being rejected separately as self-parenting; on a corrupted
cycle reachable from the candidate and avoiding the current id it need not
terminate (see the counterexample). -/
theorem C3_cycle_walk_amended :
    (∀ (db : DB) (rank : Nat → Nat) (parent_id : Option Nat) (t : Option String)
        (cur : Option Nat),
        parentRankOkB db rank = true →
        validateTerminates db parent_id t cur) ∧
    (∀ (db : DB) (pid cur : Nat) (t : Option String) (fuel : Nat) (r : Except Err Unit),
        _validate_hierarchy db (some pid) t (some cur) fuel = some r →
        (r = Except.error Err.circularDependency ↔ pid ≠ cur ∧ ChainHits db pid cur)) ∧
    (∀ (db : DB) (pid cur : Nat) (t : Option String) (fuel : Nat) (parent_story : Issue),
        findIssue db pid = some parent_story →
        pid = cur →
        _validate_hierarchy db (some pid) t (some cur) fuel =
          some (Except.error Err.selfParent)) := by
  refine ⟨?_, ?_, ?_⟩
  · intro db rank parent_id t cur hrank
    cases parent_id with
    | none => exact ⟨0, validate_none_parent_ne db t cur 0⟩
    | some pid =>
      cases hf : findIssue db pid with
      | none =>
        refine ⟨0, ?_⟩
        simp [_validate_hierarchy, hf]
      | some parent_story =>
        cases cur with
        | none =>
          refine ⟨0, ?_⟩
          simp [_validate_hierarchy, hf]
        | some c =>
          by_cases hpc : pid = c
          · refine ⟨0, ?_⟩
            subst hpc
            simp [_validate_hierarchy, hf]
          · refine ⟨rank parent_story.id + 1, ?_⟩
            simp only [_validate_hierarchy, hf]
            rw [if_neg (by simp [hpc])]
            have hs := walkAux_isSome hrank c (rank parent_story.id + 1) parent_story
              (findIssue_mem hf) (by omega)
            rcases hw : walkAux db c (rank parent_story.id + 1) parent_story with _ | b
            · rw [hw] at hs; cases hs
            · cases b <;> simp [hw]
  · intro db pid cur t fuel r h
    simp only [_validate_hierarchy] at h
    cases hf : findIssue db pid with
    | none =>
      simp only [hf] at h
      simp only [Option.some.injEq] at h
      subst h
      constructor
      · intro hc; cases hc
      · rintro ⟨-, hch⟩
        rcases Relation.TransGen.head'_iff.mp hch with ⟨b, hstep, -⟩
        rcases stepRel_elim hstep with ⟨a, hfa, -⟩
        rw [hf] at hfa
        cases hfa
    | some parent_story =>
      simp only [hf] at h
      by_cases hpc : pid = cur
      · rw [if_pos (by simp [hpc])] at h
        simp only [Option.some.injEq] at h
        subst h
        constructor
        · intro hc; cases hc
        · rintro ⟨hne, -⟩; exact absurd hpc hne
      · rw [if_neg (by simp [hpc])] at h
        rcases hw : walkAux db cur fuel parent_story with _ | b
        · rw [hw] at h; cases h
        · rw [hw] at h
          cases b
          · simp only [Option.some.injEq] at h
            subst h
            constructor
            · intro hc; exact absurd hc (hierarchyTypeCheck_ne_circular t parent_story.issue_type)
            · rintro ⟨-, hch⟩
              exact absurd hch (walkAux_false_no_hits fuel parent_story pid hf hw)
          · simp only [Option.some.injEq] at h
            subst h
            exact ⟨fun _ => ⟨hpc, walkAux_true_hits fuel parent_story pid hf hw⟩, fun _ => rfl⟩
  · intro db pid cur t fuel parent_story hf hpc
    simp only [_validate_hierarchy, hf]
    rw [if_pos (by simp [hpc])]

/-- witness for C3 (amended): the concrete acyclic three-issue store admits
the identity rank, so validation terminates there. -/
theorem C3_cycle_walk_amended_witness :
    validateTerminates exDB3 (some 300) (some "Story") (some 302) :=
  C3_cycle_walk_amended.1 exDB3 (fun i => i) (some 300) (some "Story") (some 302) (by decide)

/-! ### C10 — acyclicity preservation: supporting lemmas -/

theorem upd_title_story_id (ud : UpdateData) (s : Issue) :
    (upd_title_story ud s).id = s.id := by
  unfold upd_title_story
  rcases ud.title with _ | v
  · rfl
  · dsimp only
    split <;> rfl

theorem upd_title_story_parent_issue_id (ud : UpdateData) (s : Issue) :
    (upd_title_story ud s).parent_issue_id = s.parent_issue_id := by
  unfold upd_title_story
  rcases ud.title with _ | v
  · rfl
  · dsimp only
    split <;> rfl

theorem upd_description_story_id (ud : UpdateData) (s : Issue) :
    (upd_description_story ud s).id = s.id := by
  unfold upd_description_story
  rcases ud.description with _ | v
  · rfl
  · dsimp only
    split <;> rfl

theorem upd_description_story_parent_issue_id (ud : UpdateData) (s : Issue) :
    (upd_description_story ud s).parent_issue_id = s.parent_issue_id := by
  unfold upd_description_story
  rcases ud.description with _ | v
  · rfl
  · dsimp only
    split <;> rfl

theorem upd_sprint_number_story_id (ud : UpdateData) (s : Issue) :
    (upd_sprint_number_story ud s).id = s.id := by
  unfold upd_sprint_number_story
  rcases ud.sprint_number with _ | v
  · rfl
  · dsimp only
    split <;> rfl

theorem upd_sprint_number_story_parent_issue_id (ud : UpdateData) (s : Issue) :
    (upd_sprint_number_story ud s).parent_issue_id = s.parent_issue_id := by
  unfold upd_sprint_number_story
  rcases ud.sprint_number with _ | v
  · rfl
  · dsimp only
    split <;> rfl

theorem upd_assignee_story_id (ud : UpdateData) (s : Issue) :
    (upd_assignee_story ud s).id = s.id := by
  unfold upd_assignee_story
  rcases ud.assignee with _ | v
  · rfl
  · dsimp only
    split <;> rfl

theorem upd_assignee_story_parent_issue_id (ud : UpdateData) (s : Issue) :
    (upd_assignee_story ud s).parent_issue_id = s.parent_issue_id := by
  unfold upd_assignee_story
  rcases ud.assignee with _ | v
  · rfl
  · dsimp only
    split <;> rfl

theorem upd_assignee_id_story_id (db : DB) (ud : UpdateData) (s : Issue) :
    (upd_assignee_id_story db ud s).id = s.id := by
  unfold upd_assignee_id_story
  rcases ud.assignee_id with _ | v
  · rfl
  · dsimp only
    split <;> rfl

theorem upd_assignee_id_story_parent_issue_id (db : DB) (ud : UpdateData) (s : Issue) :
    (upd_assignee_id_story db ud s).parent_issue_id = s.parent_issue_id := by
  unfold upd_assignee_id_story
  rcases ud.assignee_id with _ | v
  · rfl
  · dsimp only
    split <;> rfl

theorem upd_reviewer_story_id (ud : UpdateData) (s : Issue) :
    (upd_reviewer_story ud s).id = s.id := by
  unfold upd_reviewer_story
  rcases ud.reviewer with _ | v
  · rfl
  · dsimp only
    split <;> rfl

theorem upd_reviewer_story_parent_issue_id (ud : UpdateData) (s : Issue) :
    (upd_reviewer_story ud s).parent_issue_id = s.parent_issue_id := by
  unfold upd_reviewer_story
  rcases ud.reviewer with _ | v
  · rfl
  · dsimp only
    split <;> rfl

theorem upd_status_story_id (ud : UpdateData) (s : Issue) :
    (upd_status_story ud s).id = s.id := by
  unfold upd_status_story
  rcases ud.status with _ | v
  · rfl
  · dsimp only
    split <;> rfl

theorem upd_status_story_parent_issue_id (ud : UpdateData) (s : Issue) :
    (upd_status_story ud s).parent_issue_id = s.parent_issue_id := by
  unfold upd_status_story
  rcases ud.status with _ | v
  · rfl
  · dsimp only
    split <;> rfl

theorem upd_priority_story_id (ud : UpdateData) (s : Issue) :
    (upd_priority_story ud s).id = s.id := by
  unfold upd_priority_story
  rcases ud.priority with _ | v
  · rfl
  · dsimp only
    split <;> rfl

theorem upd_priority_story_parent_issue_id (ud : UpdateData) (s : Issue) :
    (upd_priority_story ud s).parent_issue_id = s.parent_issue_id := by
  unfold upd_priority_story
  rcases ud.priority with _ | v
  · rfl
  · dsimp only
    split <;> rfl

theorem upd_issue_type_story_id (ud : UpdateData) (s : Issue) :
    (upd_issue_type_story ud s).id = s.id := by
  unfold upd_issue_type_story
  rcases ud.issue_type with _ | v
  · rfl
  · dsimp only
    split <;> rfl

theorem upd_issue_type_story_parent_issue_id (ud : UpdateData) (s : Issue) :
    (upd_issue_type_story ud s).parent_issue_id = s.parent_issue_id := by
  unfold upd_issue_type_story
  rcases ud.issue_type with _ | v
  · rfl
  · dsimp only
    split <;> rfl

theorem upd_start_date_story_id (ud : UpdateData) (s : Issue) :
    (upd_start_date_story ud s).id = s.id := by
  unfold upd_start_date_story
  rcases ud.start_date with _ | v
  · rfl
  · dsimp only
    split <;> rfl

theorem upd_start_date_story_parent_issue_id (ud : UpdateData) (s : Issue) :
    (upd_start_date_story ud s).parent_issue_id = s.parent_issue_id := by
  unfold upd_start_date_story
  rcases ud.start_date with _ | v
  · rfl
  · dsimp only
    split <;> rfl

theorem upd_end_date_story_id (ud : UpdateData) (s : Issue) :
    (upd_end_date_story ud s).id = s.id := by
  unfold upd_end_date_story
  rcases ud.end_date with _ | v
  · rfl
  · dsimp only
    split <;> rfl

theorem upd_end_date_story_parent_issue_id (ud : UpdateData) (s : Issue) :
    (upd_end_date_story ud s).parent_issue_id = s.parent_issue_id := by
  unfold upd_end_date_story
  rcases ud.end_date with _ | v
  · rfl
  · dsimp only
    split <;> rfl

theorem applyUpdateFields_id (db : DB) (ud : UpdateData) (story : Issue) :
    (applyUpdateFields db ud story).1.id = story.id := by
  unfold applyUpdateFields
  rw [upd_title_eq, upd_description_eq, upd_sprint_number_eq, upd_assignee_eq,
      upd_assignee_id_eq, upd_reviewer_eq, upd_status_eq, upd_priority_eq,
      upd_issue_type_eq, upd_start_date_eq, upd_end_date_eq]
  simp only [upd_title_story_id, upd_description_story_id, upd_sprint_number_story_id, upd_assignee_story_id, upd_assignee_id_story_id, upd_reviewer_story_id, upd_status_story_id, upd_priority_story_id, upd_issue_type_story_id, upd_start_date_story_id, upd_end_date_story_id]

theorem applyUpdateFields_parent (db : DB) (ud : UpdateData) (story : Issue) :
    (applyUpdateFields db ud story).1.parent_issue_id = story.parent_issue_id := by
  unfold applyUpdateFields
  rw [upd_title_eq, upd_description_eq, upd_sprint_number_eq, upd_assignee_eq,
      upd_assignee_id_eq, upd_reviewer_eq, upd_status_eq, upd_priority_eq,
      upd_issue_type_eq, upd_start_date_eq, upd_end_date_eq]
  simp only [upd_title_story_parent_issue_id, upd_description_story_parent_issue_id, upd_sprint_number_story_parent_issue_id, upd_assignee_story_parent_issue_id, upd_assignee_id_story_parent_issue_id, upd_reviewer_story_parent_issue_id, upd_status_story_parent_issue_id, upd_priority_story_parent_issue_id, upd_issue_type_story_parent_issue_id, upd_start_date_story_parent_issue_id, upd_end_date_story_parent_issue_id]

theorem log_issues (db : DB) (sid : Nat) (uid : Option Nat) (action : String) (chgs : List Chg) :
    (_log_activity_aggregated db sid uid action chgs).issues = db.issues := by
  unfold _log_activity_aggregated
  split <;> rfl

/-- the fresh-id assumption the database enforces through autoincrement and
the foreign-key constraint on `parent_issue_id`: the next issue id is not an
existing row id and no stored row points at it. -/
def freshIdOk (db : DB) : Bool :=
  db.issues.all (fun a => a.id != db.next_issue_id && a.parent_issue_id != some db.next_issue_id)

theorem parentOf_of_issues_map {db0 db : DB} {target : Issue}
    (hiss : db0.issues = db.issues.map (fun s => if s.id == target.id then target else s))
    (x : Nat) :
    parentOf db0 x = (findIssue db x).bind
      (fun a => if a.id == target.id then target.parent_issue_id else a.parent_issue_id) := by
  have hcmp : ((fun a : Issue => a.id == x) ∘ (fun s => if s.id == target.id then target else s))
      = (fun s : Issue => s.id == x) := by
    funext s
    simp only [Function.comp]
    by_cases h : (s.id == target.id) = true
    · have h2 : s.id = target.id := by simpa using h
      rw [if_pos h, ← h2]
    · rw [if_neg h]
  unfold parentOf findIssue
  rw [hiss, List.find?_map, hcmp]
  cases List.find? (fun s : Issue => s.id == x) db.issues with
  | none => rfl
  | some a =>
    show (if a.id == target.id then target else a).parent_issue_id =
      (if a.id == target.id then target.parent_issue_id else a.parent_issue_id)
    by_cases h : (a.id == target.id) = true
    · rw [if_pos h, if_pos h]
    · rw [if_neg h, if_neg h]

theorem parentOf_of_issues_append {db0 db : DB} {n : Issue}
    (hiss : db0.issues = db.issues ++ [n]) (x : Nat) :
    parentOf db0 x = (match findIssue db x with
                      | some a => a.parent_issue_id
                      | none => if n.id == x then n.parent_issue_id else none) := by
  unfold parentOf findIssue
  rw [hiss, List.find?_append]
  cases List.find? (fun s : Issue => s.id == x) db.issues with
  | none =>
    simp only [Option.or]
    by_cases h : (n.id == x) = true
    · simp [List.find?, h]
    · simp [List.find?, h]
  | some a => rfl

/-- inversion of a hierarchy validation that passed with a concrete parent
and current issue: the parent resolves, it is not the current issue, and the
ancestor walk came back clean. -/
theorem validate_ok_inv {db : DB} {p cur : Nat} {t : Option String} {fuel : Nat}
    (h : _validate_hierarchy db (some p) t (some cur) fuel = some (Except.ok ())) :
    ∃ ps, findIssue db p = some ps ∧ p ≠ cur ∧ walkAux db cur fuel ps = some false := by
  simp only [_validate_hierarchy] at h
  cases hf : findIssue db p with
  | none => simp only [hf] at h; cases h
  | some ps =>
    simp only [hf] at h
    by_cases hpc : p = cur
    · rw [if_pos (by simp [hpc])] at h; cases h
    · rw [if_neg (by simp [hpc])] at h
      rcases hw : walkAux db cur fuel ps with _ | b
      · rw [hw] at h; cases h
      · rw [hw] at h
        cases b
        · exact ⟨ps, rfl, hpc, hw⟩
        · cases h

/-- inversion of a create-side validation with a concrete parent: the parent
must resolve. -/
theorem validate_ok_none_cur_inv {db : DB} {p : Nat} {t : Option String} {fuel : Nat}
    (h : _validate_hierarchy db (some p) t none fuel = some (Except.ok ())) :
    ∃ ps, findIssue db p = some ps := by
  simp only [_validate_hierarchy] at h
  cases hf : findIssue db p with
  | none => simp only [hf] at h; cases h
  | some ps => exact ⟨ps, rfl⟩

theorem freshIdOk_spec {db : DB} (h : freshIdOk db = true) :
    ∀ a ∈ db.issues, a.id ≠ db.next_issue_id ∧ a.parent_issue_id ≠ some db.next_issue_id := by
  intro a ha
  have := List.all_eq_true.mp h a ha
  simp only [Bool.and_eq_true, bne_iff_ne] at this
  exact this

/-- determinism-driven cycle rotation: if a deterministic relation has a
cycle through `x` and a path from `x` to `c`, it has a cycle through `c`. -/
theorem det_cycle {r : Nat → Nat → Prop} (hdet : ∀ x y z, r x y → r x z → y = z)
    {x c : Nat} (hrefl : Relation.ReflTransGen r x c) (hxx : Relation.TransGen r x x) :
    Relation.TransGen r c c := by
  induction hrefl with
  | refl => exact hxx
  | tail hab hbc ih =>
    rcases Relation.TransGen.head'_iff.mp ih with ⟨d, hbd, hdb⟩
    have hdc := hdet _ _ _ hbd hbc
    subst hdc
    exact Relation.TransGen.tail' hdb hbc

/-- replacing the out-edges of one node `cur` with a single edge to `p` that
provably cannot reach back to `cur` keeps a deterministic acyclic graph
acyclic. -/
theorem acyclic_of_edges (S R : Nat → Nat → Prop) (cur p : Nat)
    (hdet : ∀ x y z, R x y → R x z → y = z)
    (hF1 : ∀ x y, x ≠ cur → (R x y ↔ S x y))
    (hF2 : ∀ y, R cur y ↔ y = p)
    (hF3 : ¬ Relation.TransGen S p cur)
    (hF4 : p ≠ cur)
    (hF5 : ∀ x, ¬ Relation.TransGen S x x) :
    ∀ x, ¬ Relation.TransGen R x x := by
  have L4 : ∀ x y, Relation.TransGen R x y →
      Relation.TransGen S x y ∨ x = cur ∨
        (Relation.TransGen S x cur ∧ Relation.ReflTransGen R x cur) := by
    intro x y h
    induction h using Relation.TransGen.head_induction_on with
    | @base a hab =>
      by_cases hx : a = cur
      · exact Or.inr (Or.inl hx)
      · exact Or.inl (Relation.TransGen.single ((hF1 a _ hx).mp hab))
    | @ih a c hab hby IH =>
      by_cases hx : a = cur
      · exact Or.inr (Or.inl hx)
      · have hSab : S a c := (hF1 a c hx).mp hab
        rcases IH with hS | hb | ⟨hS2, hR2⟩
        · exact Or.inl (Relation.TransGen.head hSab hS)
        · subst hb
          exact Or.inr (Or.inr ⟨Relation.TransGen.single hSab,
            Relation.ReflTransGen.head hab Relation.ReflTransGen.refl⟩)
        · exact Or.inr (Or.inr ⟨Relation.TransGen.head hSab hS2,
            Relation.ReflTransGen.head hab hR2⟩)
  have M : ¬ Relation.TransGen R cur cur := by
    intro hcyc
    rcases Relation.TransGen.head'_iff.mp hcyc with ⟨b, hRb, hrest⟩
    have hb : b = p := (hF2 b).mp hRb
    rw [hb] at hrest
    have htg : Relation.TransGen R p cur := by
      rcases Relation.ReflTransGen.cases_head hrest with heq | ⟨c, hc, hrc⟩
      · exact absurd heq hF4
      · exact Relation.TransGen.head'_iff.mpr ⟨c, hc, hrc⟩
    rcases L4 p cur htg with hS | hpcur | ⟨hS2, -⟩
    · exact hF3 hS
    · exact hF4 hpcur
    · exact hF3 hS2
  intro x hcyc
  rcases L4 x x hcyc with hS | hx | ⟨-, hR⟩
  · exact hF5 x hS
  · subst hx; exact M hcyc
  · exact M (det_cycle hdet hR hcyc)

/-- appending a fresh node that nothing points at keeps an acyclic graph
acyclic. -/
theorem acyclic_append (S R : Nat → Nat → Prop) (nid : Nat)
    (hG1 : ∀ x y, R x y → (S x y ∨ x = nid))
    (hG4 : ∀ x, ¬ R x nid)
    (hF5 : ∀ x, ¬ Relation.TransGen S x x) :
    ∀ x, ¬ Relation.TransGen R x x := by
  have hne : ∀ x y, Relation.TransGen R x y → y ≠ nid := by
    intro x y h hy
    subst hy
    rcases Relation.TransGen.tail'_iff.mp h with ⟨b, -, hby⟩
    exact hG4 b hby
  have L5 : ∀ x y, Relation.TransGen R x y → x ≠ nid → Relation.TransGen S x y := by
    intro x y h
    induction h using Relation.TransGen.head_induction_on with
    | @base a hab =>
      intro hx
      rcases hG1 a _ hab with hS | ha
      · exact Relation.TransGen.single hS
      · exact absurd ha hx
    | @ih a c hab hby IH =>
      intro hx
      rcases hG1 a c hab with hS | ha
      · have hbne : c ≠ nid := by
          intro hb; subst hb; exact hG4 a hab
        exact Relation.TransGen.head hS (IH hbne)
      · exact absurd ha hx
  intro x hcyc
  by_cases hx : x = nid
  · subst hx; exact hne _ _ hcyc rfl
  · exact hF5 x (L5 x x hcyc hx)

/-- a store with a strictly decreasing parent rank is acyclic. -/
theorem acyclic_of_rank {db : DB} {rank : Nat → Nat}
    (h : parentRankOkB db rank = true) : AcyclicDB db := by
  have hdec : ∀ x y, Relation.TransGen (stepRel db) x y →
      (∃ b, findIssue db y = some b) → rank y < rank x := by
    intro x y hxy
    induction hxy using Relation.TransGen.head_induction_on with
    | @base a hab =>
      rintro ⟨b, hb⟩
      rcases stepRel_elim hab with ⟨s, hfs, hps⟩
      have := parentRankOk_spec h s (findIssue_mem hfs) _ hps b hb
      rw [findIssue_id hfs] at this
      exact this
    | @ih a c hab hby IH =>
      rintro ⟨b, hb⟩
      rcases stepRel_elim hab with ⟨s, hfs, hps⟩
      rcases Relation.TransGen.head'_iff.mp hby with ⟨d, hcd, -⟩
      rcases stepRel_elim hcd with ⟨sc, hfc, -⟩
      have h1 := parentRankOk_spec h s (findIssue_mem hfs) _ hps sc hfc
      rw [findIssue_id hfs] at h1
      have h2 := IH ⟨b, hb⟩
      omega
  intro x hcyc
  rcases Relation.TransGen.head'_iff.mp hcyc with ⟨d, hxd, -⟩
  rcases stepRel_elim hxd with ⟨s, hfs, -⟩
  exact absurd (hdec x x hcyc ⟨s, hfs⟩) (by omega)

/-- C10: starting from a store whose parent graph is acyclic, every accepted
update leaves it acyclic, and every accepted create with a fresh
autoincrement id leaves it acyclic; concretely, on the stored chain
300 ← 301 ← 302, re-parenting 300 under its descendant 302 is rejected with
CircularDependency and self-parenting 300 is rejected as well. -/
theorem C10_acyclicity_preserved :
    (∀ (db : DB) (user : UserRec) (id : Nat) (form : UpdateForm) (fuel : Nat)
        (db' : DB) (s' : Issue),
        AcyclicDB db →
        update_story db user id form fuel = some (Except.ok (db', s')) →
        AcyclicDB db') ∧
    (∀ (db : DB) (user : UserRec) (form : CreateForm) (db' : DB) (s' : Issue),
        AcyclicDB db → freshIdOk db = true →
        create_user_story db user form = Except.ok (db', s') →
        AcyclicDB db') ∧
    update_story exDB3 uAdmin 300 { parent_issue_id := some "302" } 9 =
      some (Except.error Err.circularDependency) ∧
    update_story exDB3 uAdmin 300 { parent_issue_id := some "300" } 9 =
      some (Except.error Err.selfParent) := by
  refine ⟨?_, ?_, by decide, by decide⟩
  · intro db user id form fuel db' s' hacyc h
    obtain ⟨story, project, ud, story1, pcs, hfind, -, -, -, -, hps, -, hcommit⟩ :=
      update_story_ok_inv h
    have hdb' : db' = (updateCommit db user ud story1 pcs).1 := by rw [← hcommit]
    have hFid : (applyUpdateFields db ud story1).1.id = story1.id :=
      applyUpdateFields_id db ud story1
    have hFpar : (applyUpdateFields db ud story1).1.parent_issue_id = story1.parent_issue_id :=
      applyUpdateFields_parent db ud story1
    have hiss : db'.issues = db.issues.map
        (fun s => if s.id == (applyUpdateFields db ud story1).1.id
                  then (applyUpdateFields db ud story1).1 else s) := by
      rw [hdb']
      unfold updateCommit
      dsimp only
      rw [log_issues]
    have hpo := fun x => parentOf_of_issues_map hiss x
    have hsid : story.id = id := findIssue_id hfind
    rcases parentStage_ok_inv hps with ⟨h1, -, -⟩ | ⟨np, -, -, hval, h1, -⟩
    · subst h1
      have hiff : ∀ x y, stepRel db' x y ↔ stepRel db x y := by
        intro x y
        unfold stepRel
        rw [hpo x]
        cases hf2 : findIssue db x with
        | none => simp [parentOf, hf2]
        | some a =>
          by_cases hid : (a.id == (applyUpdateFields db ud story1).1.id) = true
          · have hax : a.id = x := findIssue_id hf2
            have haf : a.id = (applyUpdateFields db ud story1).1.id := by simpa using hid
            have hxid : x = id := by rw [← hax, haf, hFid]; exact hsid
            subst hxid
            rw [hfind] at hf2
            have ha2 : story1 = a := Option.some.inj hf2
            subst ha2
            simp [parentOf, hfind, hid, hFpar]
          · have hidp : ¬ a.id = (applyUpdateFields db ud story1).1.id := by simpa using hid
            simp [parentOf, hf2, hid, hidp]
      intro x hcyc
      exact hacyc x (Relation.TransGen.mono (fun a b hab => (hiff a b).mp hab) hcyc)
    · subst h1
      have hFid2 : (applyUpdateFields db ud { story with parent_issue_id := np }).1.id
          = story.id := hFid
      have hFpar2 : (applyUpdateFields db ud
          { story with parent_issue_id := np }).1.parent_issue_id = np := hFpar
      cases np with
      | none =>
        have hsub : ∀ x y, stepRel db' x y → stepRel db x y := by
          intro x y hxy
          unfold stepRel at hxy ⊢
          rw [hpo x] at hxy
          cases hf2 : findIssue db x with
          | none => rw [hf2] at hxy; cases hxy
          | some a =>
            rw [hf2] at hxy
            rcases hid : (a.id == (applyUpdateFields db ud
                { story with parent_issue_id := none }).1.id) with _ | _
            · simp only [Option.some_bind, hid, Bool.false_eq_true, if_false] at hxy
              unfold parentOf
              rw [hf2]
              exact hxy
            · simp only [Option.some_bind, hid, if_true, hFpar2] at hxy
              cases hxy
        intro x hcyc
        exact hacyc x (Relation.TransGen.mono hsub hcyc)
      | some p =>
        obtain ⟨ps, hfp, hpne, hw⟩ := validate_ok_inv hval
        have hF3 : ¬ Relation.TransGen (stepRel db) p story.id :=
          walkAux_false_no_hits fuel ps p hfp hw
        apply acyclic_of_edges (stepRel db) (stepRel db') story.id p
          (fun x y z h1 h2 => stepRel_det h1 h2)
        · intro x y hx
          unfold stepRel
          rw [hpo x]
          cases hf2 : findIssue db x with
          | none => simp [parentOf, hf2]
          | some a =>
            have hax : a.id = x := findIssue_id hf2
            have hidp : ¬ a.id = (applyUpdateFields db ud
                { story with parent_issue_id := some p }).1.id := by
              rw [hFid2, hax]
              exact hx
            simp [parentOf, hf2, hidp]
        · intro y
          unfold stepRel
          have hfind2 : findIssue db story.id = some story := by rw [hsid]; exact hfind
          rw [hpo story.id, hfind2]
          have hid : (story.id == (applyUpdateFields db ud
              { story with parent_issue_id := some p }).1.id) = true := by
            rw [hFid2]
            simp
          simp only [Option.bind]
          rw [if_pos hid, hFpar2]
          simp only [Option.some.injEq]
          exact eq_comm
        · exact hF3
        · exact hpne
        · exact hacyc
  · intro db user form db' s' hacyc hfresh h
    obtain ⟨aid, nm, project, db1, code, -, -, -, -, hval, -, hsync, hcommit⟩ :=
      create_user_story_ok_inv h
    have hdb' : db' = (createCommit db1 user form project aid nm code).1 := by rw [← hcommit]
    obtain ⟨-, hiss1, hnid1⟩ := syncTeamMembers_ok_inv hsync
    have hiss : db'.issues = db.issues ++ [(createCommit db1 user form project aid nm code).2] := by
      rw [hdb']
      rw [show (createCommit db1 user form project aid nm code).1.issues
            = db1.issues ++ [(createCommit db1 user form project aid nm code).2] from rfl]
      rw [hiss1]
    have hpo := fun x => parentOf_of_issues_append hiss x
    have hnid : (createCommit db1 user form project aid nm code).2.id = db.next_issue_id := by
      rw [show (createCommit db1 user form project aid nm code).2.id
            = db1.next_issue_id from rfl]
      rw [hnid1]
    have hnpar : (createCommit db1 user form project aid nm code).2.parent_issue_id
        = parse_optional_int form.parent_issue_id := rfl
    have hparne : parse_optional_int form.parent_issue_id ≠ some db.next_issue_id := by
      cases hpp : parse_optional_int form.parent_issue_id with
      | none => simp
      | some p =>
        rw [hpp] at hval
        obtain ⟨ps, hfindp⟩ := validate_ok_none_cur_inv hval
        have hmem := findIssue_mem hfindp
        have hpid := findIssue_id hfindp
        have := (freshIdOk_spec hfresh ps hmem).1
        rw [hpid] at this
        simp [this]
    apply acyclic_append (stepRel db) (stepRel db') db.next_issue_id
    · intro x y hxy
      unfold stepRel at hxy
      rw [hpo x] at hxy
      cases hf2 : findIssue db x with
      | none =>
        rw [hf2] at hxy
        by_cases hid : ((createCommit db1 user form project aid nm code).2.id == x) = true
        · right
          have hx : (createCommit db1 user form project aid nm code).2.id = x := by
            simpa using hid
          rw [← hx, hnid]
        · rw [if_neg hid] at hxy; cases hxy
      | some a =>
        rw [hf2] at hxy
        left
        unfold stepRel parentOf
        rw [hf2]
        exact hxy
    · intro x hxy
      unfold stepRel at hxy
      rw [hpo x] at hxy
      cases hf2 : findIssue db x with
      | none =>
        rw [hf2] at hxy
        by_cases hid : ((createCommit db1 user form project aid nm code).2.id == x) = true
        · rw [if_pos hid, hnpar] at hxy
          exact hparne hxy
        · rw [if_neg hid] at hxy; cases hxy
      | some a =>
        rw [hf2] at hxy
        have hmem := findIssue_mem hf2
        have := (freshIdOk_spec hfresh a hmem).2
        exact this hxy
    · exact hacyc

/-- witness for C10: the three-level store 300 ← 301 ← 302 is acyclic (it
carries the identity rank), the concrete title-only update on issue 300 is
accepted, and the preservation theorem yields acyclicity of the committed
store. -/
theorem C10_acyclicity_preserved_witness :
    AcyclicDB (updateCommit exDB3 uAdmin { title := some "E2" } iA []).1 :=
  C10_acyclicity_preserved.1 exDB3 uAdmin 300 { title := some "E2" } 9
    (updateCommit exDB3 uAdmin { title := some "E2" } iA []).1
    (updateCommit exDB3 uAdmin { title := some "E2" } iA []).2
    (@acyclic_of_rank exDB3 (fun i => i) (by decide)) (by decide)
